import Mathlib

/-!
# Verification of the MCP-Claude-FileMaker session/cache coordination layer

This file shallowly embeds the session/cache core of the repository
(`server.js` and `src/filemaker-client.ts`): target discovery from the
environment, the credential (session) cache, the result (data) cache, the
authenticate-or-reuse logic, the 401-invalidate-and-retry-once protocol of
`makeFileMakerRequest`, and the tool handlers, and proves the frozen claims
about them.

Modelling conventions:
* JSON values are the inductive `JVal` (numbers as integers); JavaScript
  truthiness is `jsTruthy`.
* The remote backend is an oracle (`Backend`): the n-th session-creation call
  and the n-th data call receive their outcomes from oracle functions indexed
  by the number of calls of that kind made so far.  A successful session call
  is abstracted to the token string carried in `response.data.response.token`;
  a successful data call to the (object-shaped) response body, mirroring the
  JSON bodies of the FileMaker Data API.
* Each issued remote request is recorded in a log in the state, so theorems
  can speak about how many remote calls occurred and with which credentials.
* `NodeCache` stores are modelled as association lists; TTL expiry is not
  modelled (a present entry is a live, unexpired entry), which is the reading
  the claims use ("within the TTL").
-/

/-- JSON values, numbers modelled as integers (the payloads exercised by the
claims are integral). -/
inductive JVal where
  | null : JVal
  | bool (b : Bool) : JVal
  | num (n : Int) : JVal
  | str (s : String) : JVal
  | arr (xs : List JVal) : JVal
  | obj (fields : List (String × JVal)) : JVal

/-- JavaScript truthiness of a value: `null`, `false`, `0` and `""` are falsy;
arrays and objects (even empty ones) are truthy. -/
def jsTruthy : JVal → Bool
  | .null => false
  | .bool b => b
  | .num n => n != 0
  | .str s => s != ""
  | .arr _ => true
  | .obj _ => true

/-- `x || d` on an optional JavaScript value (`none` models `undefined`). -/
def jsOr (x : Option JVal) (d : JVal) : JVal :=
  match x with
  | some v => if jsTruthy v then v else d
  | none => d

/-- Truthiness of an optional JavaScript string (`none` models `undefined`);
this is the guard used by `if (cachedSession)` and the discovery conditions. -/
def optTruthy : Option String → Bool
  | some s => s != ""
  | none => false

/-- `s || d` for JavaScript strings read from the environment. -/
def jsOrStr (x : Option String) (d : String) : String :=
  match x with
  | some s => if s = "" then d else s
  | none => d

/-- First-match lookup in an association list (the observable behaviour of
`NodeCache.get` / `process.env[k]`). -/
def assocLookup (k : String) : List (String × α) → Option α
  | [] => none
  | (k', v) :: rest => if k' = k then some v else assocLookup k rest

/-- Removal of a key (`NodeCache.del`). -/
def assocErase (k : String) (l : List (String × α)) : List (String × α) :=
  l.filter (fun p => p.1 ≠ k)

/-- Insert-or-overwrite of a key (`NodeCache.set`). -/
def assocSet (k : String) (v : α) (l : List (String × α)) : List (String × α) :=
  (k, v) :: assocErase k l

theorem assocErase_cons (k : String) (p : String × α) (rest : List (String × α)) :
    assocErase k (p :: rest) =
      if p.1 = k then assocErase k rest else p :: assocErase k rest := by
  by_cases h : p.1 = k <;> simp [assocErase, List.filter_cons, h]

theorem assocLookup_erase_self (k : String) (l : List (String × α)) :
    assocLookup k (assocErase k l) = none := by
  induction l with
  | nil => rfl
  | cons p rest ih =>
    rw [assocErase_cons]
    by_cases h : p.1 = k
    · simpa [h] using ih
    · simpa [h, assocLookup] using ih

theorem assocLookup_erase_ne (k k' : String) (l : List (String × α)) (h : k' ≠ k) :
    assocLookup k (assocErase k' l) = assocLookup k l := by
  induction l with
  | nil => rfl
  | cons p rest ih =>
    rw [assocErase_cons]
    by_cases hp : p.1 = k'
    · have hk : ¬p.1 = k := by rw [hp]; exact h
      simp [assocLookup, hp, hk, ih, h]
    · by_cases hk : p.1 = k
      · simp [assocLookup, hp, hk, Ne.symm h]
      · simp [assocLookup, hp, hk, ih]

theorem assocLookup_set_self (k : String) (v : α) (l : List (String × α)) :
    assocLookup k (assocSet k v l) = some v := by
  simp [assocSet, assocLookup]

theorem assocLookup_set_ne (k k' : String) (v : α) (l : List (String × α)) (h : k' ≠ k) :
    assocLookup k (assocSet k' v l) = assocLookup k l := by
  simp [assocSet, assocLookup, h]
  exact assocLookup_erase_ne k k' l h

/-- Lower-case hexadecimal digit, for `JSON.stringify` control-character
escapes. -/
def hexDigit (n : Nat) : String :=
  if n < 10 then toString n
  else if n = 10 then "a" else if n = 11 then "b" else if n = 12 then "c"
  else if n = 13 then "d" else if n = 14 then "e" else "f"

/-- The escape `JSON.stringify` applies to one character of a string. -/
def jsonQuoteChar (c : Char) : String :=
  if c = '"' then "\\\""
  else if c = '\\' then "\\\\"
  else if c = '\n' then "\\n"
  else if c = '\t' then "\\t"
  else if c = '\r' then "\\r"
  else if c = '\x08' then "\\b"
  else if c = '\x0c' then "\\f"
  else if c.toNat < 32 then "\\u00" ++ hexDigit (c.toNat / 16) ++ hexDigit (c.toNat % 16)
  else String.singleton c

/-- `JSON.stringify` of a string: double quotes around the escaped body. -/
def jsonQuote (s : String) : String :=
  "\"" ++ String.join (s.data.map jsonQuoteChar) ++ "\""

mutual

/-- Compact `JSON.stringify` (no indent), as used to build the `findRecords`
cache key in `src/filemaker-client.ts`; object fields are serialized in their
given order, exactly as `JSON.stringify` does. -/
def jsonStringify : JVal → String
  | .null => "null"
  | .bool b => if b then "true" else "false"
  | .num n => toString n
  | .str s => jsonQuote s
  | .arr xs => "[" ++ jsonArrBody xs ++ "]"
  | .obj fs => "\x7b" ++ jsonObjBody fs ++ "\x7d"

/-- Comma-separated serialization of array elements. -/
def jsonArrBody : List JVal → String
  | [] => ""
  | [x] => jsonStringify x
  | x :: y :: rest => jsonStringify x ++ "," ++ jsonArrBody (y :: rest)

/-- Comma-separated serialization of object fields, in given order. -/
def jsonObjBody : List (String × JVal) → String
  | [] => ""
  | [(k, v)] => jsonQuote k ++ ":" ++ jsonStringify v
  | (k, v) :: q :: rest => jsonQuote k ++ ":" ++ jsonStringify v ++ "," ++ jsonObjBody (q :: rest)

end

mutual

/-- JavaScript string coercion `${v}` of a value (used when a backend error
message is interpolated into an `Error` message). -/
def jsDisplay : JVal → String
  | .null => "null"
  | .bool b => if b then "true" else "false"
  | .num n => toString n
  | .str s => s
  | .arr xs => jsDisplayArr xs
  | .obj _ => "[object Object]"

/-- Coercion of one array element inside `Array.prototype.toString` (`null`
becomes the empty string there). -/
def jsDisplayItem : JVal → String
  | .null => ""
  | .bool b => if b then "true" else "false"
  | .num n => toString n
  | .str s => s
  | .arr xs => jsDisplayArr xs
  | .obj _ => "[object Object]"

/-- `Array.prototype.toString`: elements joined with commas. -/
def jsDisplayArr : List JVal → String
  | [] => ""
  | [x] => jsDisplayItem x
  | x :: y :: rest => jsDisplayItem x ++ "," ++ jsDisplayArr (y :: rest)

end

/-- Member access `v?.k` for the keys exercised here (`message`): objects use
field lookup, any non-object yields `undefined`. -/
def jsMember (v : JVal) (k : String) : Option JVal :=
  match v with
  | .obj fs => assocLookup k fs
  | _ => none

/-- Index access `v?.[0]`: first array element, field `"0"` of an object, first
character of a string, `undefined` otherwise. -/
def jsIndex0 (v : JVal) : Option JVal :=
  match v with
  | .arr (x :: _) => some x
  | .arr [] => none
  | .obj fs => assocLookup "0" fs
  | .str s =>
    match s.data with
    | c :: _ => some (.str (String.singleton c))
    | [] => none
  | _ => none

/-!
## Embedding of `server.js`

`server.js` discovers database targets from the environment, keeps a session
cache (tokens) and a data cache (response bodies), authenticates with HTTP
basic auth, and retries a data request exactly once after a 401.
-/

/-- One discovered database configuration (the object stored in
`databases[identifier]` in `server.js`): `username`, `password` and `apiKey`
are the raw environment values and may be absent (`undefined`). -/
structure DbConfig where
  server : String
  database : String
  username : Option String
  password : Option String
  apiKey : Option String
  protocol : String
  apiVersion : String

/-- A response body: the object `response.data` parsed from JSON (the
FileMaker Data API always answers with a JSON object). -/
abbrev Body := List (String × JVal)

/-- The session-creation request issued by `authenticateFileMaker`
(`axios.post(baseURL + "/sessions", {}, { auth: { username, password } })`). -/
structure AuthRequest where
  url : String
  username : Option String
  password : Option String

/-- A data request issued by `makeFileMakerRequest`, with its bearer token. -/
structure DataRequest where
  method : String
  url : String
  body : Option JVal
  token : String

/-- A failed remote call: an HTTP error response with a status and a JSON
body, or a network-level error with only a message. -/
inductive RemoteFailure where
  | http (status : Nat) (body : Body) : RemoteFailure
  | net (msg : String) : RemoteFailure

/-- `error.response?.status` of a failed axios call. -/
def failureStatus : RemoteFailure → Option Nat
  | .http status _ => some status
  | .net _ => none

/-- The generic `error.message` axios produces for a failed call. -/
def axiosMessage : RemoteFailure → String
  | .http status _ => "Request failed with status code " ++ toString status
  | .net msg => msg

/-- `error.response?.data?.messages?.[0]?.message || error.message`: the
FileMaker message from the error body when truthy, else the axios message. -/
def failureMsg (f : RemoteFailure) : String :=
  match f with
  | .http _ body =>
    match assocLookup "messages" body with
    | some msgs =>
      match jsIndex0 msgs with
      | some first =>
        match jsMember first "message" with
        | some m => if jsTruthy m then jsDisplay m else axiosMessage f
        | none => axiosMessage f
      | none => axiosMessage f
    | none => axiosMessage f
  | .net _ => axiosMessage f

/-- Outcome of a session-creation call: the token string carried in
`response.data.response.token` on success, or a failure. -/
inductive AuthOutcome where
  | ok (token : String) : AuthOutcome
  | fail (f : RemoteFailure) : AuthOutcome

/-- Outcome of a data call: the response body on success, or a failure. -/
inductive DataOutcome where
  | ok (body : Body) : DataOutcome
  | fail (f : RemoteFailure) : DataOutcome

/-- The remote FileMaker backend, as an oracle: the result of the n-th
session-creation call and of the n-th data call (n counted per kind, from the
request logs in the state). -/
structure Backend where
  authResult : Nat → AuthOutcome
  dataResult : Nat → DataOutcome

/-- The part of the server state `authenticateFileMaker` and
`makeFileMakerRequest` reference: the session `NodeCache` and the logs of
every remote request issued so far (the data cache is only ever touched by
the tool handlers, which is visible here in the types). -/
structure SessionState where
  sessionCache : List (String × String)
  authLog : List AuthRequest
  dataLog : List DataRequest

/-- The full mutable state of the server process: the session layer state
plus the data `NodeCache`. -/
structure SrvState where
  session : SessionState
  dataCache : List (String × Body)

/-- The freshly started server: both caches empty, no remote calls yet. -/
def initState : SrvState :=
  { session := { sessionCache := [], authLog := [], dataLog := [] }, dataCache := [] }

/-- Errors thrown by the embedded functions.  `authError` and `requestError`
are the wrapped `new Error(...)` messages thrown by `authenticateFileMaker`
and `makeFileMakerRequest`; `rawFailure` is an axios error that propagates
unwrapped (the failed retry after a 401). -/
inductive FMError where
  | authError (msg : String) : FMError
  | requestError (msg : String) : FMError
  | rawFailure (f : RemoteFailure) : FMError
  | otherError (msg : String) : FMError

/-- The session-cache key `` `session_${dbConfig.database}` ``. -/
def sessionKey (cfg : DbConfig) : String := "session_" ++ cfg.database

/-- `` `${protocol}://${server}/fmi/data/${apiVersion}/databases/${database}` ``. -/
def baseURL (cfg : DbConfig) : String :=
  cfg.protocol ++ "://" ++ cfg.server ++ "/fmi/data/" ++ cfg.apiVersion ++
    "/databases/" ++ cfg.database

/-- The session request `authenticateFileMaker` posts for a configuration. -/
def authRequestOf (cfg : DbConfig) : AuthRequest :=
  { url := baseURL cfg ++ "/sessions", username := cfg.username, password := cfg.password }

/-- The `try` body of `authenticateFileMaker`: post to `/sessions` with basic
auth; on success cache and return the token, on failure throw
`Authentication failed for ...` with the backend's message. -/
def authenticateRemote (cfg : DbConfig) (be : Backend) (s : SessionState) :
    Except FMError String × SessionState :=
  let s₁ := { s with authLog := s.authLog ++ [authRequestOf cfg] }
  match be.authResult s.authLog.length with
  | .ok token =>
    (.ok token, { s₁ with sessionCache := assocSet (sessionKey cfg) token s₁.sessionCache })
  | .fail f =>
    (.error (.authError ("Authentication failed for " ++ cfg.database ++ ": " ++ failureMsg f)), s₁)

/-- `authenticateFileMaker(dbConfig)`: return the cached session if the cache
holds a truthy entry (`if (cachedSession) return cachedSession`), otherwise
authenticate remotely. -/
def authenticateFileMaker (cfg : DbConfig) (be : Backend) (s : SessionState) :
    Except FMError String × SessionState :=
  match assocLookup (sessionKey cfg) s.sessionCache with
  | some cachedSession =>
    if cachedSession = "" then authenticateRemote cfg be s else (.ok cachedSession, s)
  | none => authenticateRemote cfg be s

/-- The data request `makeFileMakerRequest` issues for a given token. -/
def dataRequestOf (cfg : DbConfig) (method endpoint : String) (data : Option JVal)
    (token : String) : DataRequest :=
  { method := method, url := baseURL cfg ++ endpoint, body := data, token := token }

/-- `makeFileMakerRequest(dbConfig, method, endpoint, data)`: get a token,
issue the call; on a 401 delete the session-cache entry, re-authenticate and
retry exactly once (a failed retry propagates the raw axios error); any other
failure is wrapped as `Request failed: ...` and thrown at once. -/
def makeFileMakerRequest (cfg : DbConfig) (method endpoint : String) (data : Option JVal)
    (be : Backend) (s : SessionState) : Except FMError Body × SessionState :=
  match authenticateFileMaker cfg be s with
  | (.error e, s₁) => (.error e, s₁)
  | (.ok token, s₁) =>
    let s₂ := { s₁ with dataLog := s₁.dataLog ++ [dataRequestOf cfg method endpoint data token] }
    match be.dataResult s₁.dataLog.length with
    | .ok body => (.ok body, s₂)
    | .fail f =>
      if failureStatus f = some 401 then
        let s₃ := { s₂ with sessionCache := assocErase (sessionKey cfg) s₂.sessionCache }
        match authenticateFileMaker cfg be s₃ with
        | (.error e, s₄) => (.error e, s₄)
        | (.ok newToken, s₄) =>
          let s₅ :=
            { s₄ with dataLog := s₄.dataLog ++ [dataRequestOf cfg method endpoint data newToken] }
          match be.dataResult s₄.dataLog.length with
          | .ok body => (.ok body, s₅)
          | .fail f₂ => (.error (.rawFailure f₂), s₅)
      else
        (.error (.requestError ("Request failed: " ++ failureMsg f)), s₂)

/-!
## Target discovery (`server.js` lines 34-68)
-/

/-- `process.env[k]` over an environment snapshot. -/
def envGet (env : List (String × String)) (k : String) : Option String :=
  assocLookup k env

/-- `key.startsWith(p)`, computed on the character list. -/
def strHasPrefix (k p : String) : Bool :=
  p.data.isPrefixOf k.data

/-- `serverKey.replace("FM_SERVER_", "")`: for the keys reaching it (they all
pass the `startsWith("FM_SERVER_")` filter) this removes the leading prefix. -/
def stripServerKey (k : String) : String :=
  ⟨k.data.drop ("FM_SERVER_".data.length)⟩

/-- One iteration of the discovery loop: read the per-identifier environment
entries and build the configuration object iff
`server && database && ((username && password) || apiKey)`. -/
def candidateFor (env : List (String × String)) (serverKey : String) :
    Option (String × DbConfig) :=
  let identifier := stripServerKey serverKey
  let server := envGet env serverKey
  let database := envGet env ("FM_DATABASE_" ++ identifier)
  let username := envGet env ("FM_ACCOUNT_" ++ identifier)
  let password := envGet env ("FM_PASSWORD_" ++ identifier)
  let apiKey := envGet env ("FM_API_KEY_" ++ identifier)
  let protocol := jsOrStr (envGet env "FM_PROTOCOL") "https"
  let apiVersion := jsOrStr (envGet env "FM_API_VERSION") "v1"
  if optTruthy server && optTruthy database &&
      (optTruthy username && optTruthy password || optTruthy apiKey) then
    some (identifier,
      { server := server.getD "", database := database.getD "",
        username := username, password := password, apiKey := apiKey,
        protocol := protocol, apiVersion := apiVersion })
  else none

/-- The discovery loop: every environment key starting with `FM_SERVER_` is a
candidate, in environment order; incomplete candidates are dropped silently. -/
def discover (env : List (String × String)) : List (String × DbConfig) :=
  ((env.map Prod.fst).filter (fun k => strHasPrefix k "FM_SERVER_")).filterMap
    (candidateFor env)

/-- The startup check: `process.exit(1)` (modelled as an error) iff no valid
configuration survived discovery. -/
def startupDatabases (env : List (String × String)) :
    Except String (List (String × DbConfig)) :=
  let databases := discover env
  if databases.isEmpty then
    .error "No valid FileMaker database configurations found in environment variables"
  else
    .ok databases

/-!
## Tool handlers (`server.js` lines 397-647)

A handler's first component is the JavaScript value handed to
`JSON.stringify(-, null, 2)` for the reply text (`none` models `undefined`,
i.e. a missing `response` field); errors become the `❌ Error: ...` reply.
-/

/-- Whether a UTF-8 byte is left unescaped by `encodeURIComponent`
(ASCII letters, digits, and `- _ . ! ~ * ' ( )`). -/
def uriUnreservedByte (b : UInt8) : Bool :=
  let n := b.toNat
  (65 ≤ n && n ≤ 90) || (97 ≤ n && n ≤ 122) || (48 ≤ n && n ≤ 57) ||
    n = 45 || n = 95 || n = 46 || n = 33 || n = 126 || n = 42 || n = 39 ||
    n = 40 || n = 41

/-- `%HH` escape of one byte, upper-case hex. -/
def percentByte (b : UInt8) : String :=
  let n := b.toNat
  "%" ++ (hexDigit (n / 16)).toUpper ++ (hexDigit (n % 16)).toUpper

/-- `encodeURIComponent`: percent-encodes every UTF-8 byte outside the
unreserved set. -/
def encodeURIComponent (s : String) : String :=
  String.join (s.toUTF8.toList.map (fun b =>
    if uriUnreservedByte b then String.singleton (Char.ofNat b.toNat) else percentByte b))

/-- `{ "success": true }`, the fallback payload of the delete and run-script
handlers. -/
def successObj : JVal := .obj [("success", .bool true)]

/-- Arguments of `fm_get_layout_metadata`. -/
structure LayoutArgs where
  database : String
  layout : String

/-- Arguments of `fm_query_records`. -/
structure QueryArgs where
  database : String
  layout : String
  query : Option (List JVal)
  sort : Option (List JVal)
  limit : Option Int
  offset : Option Int

/-- Arguments of `fm_create_record`. -/
structure CreateArgs where
  database : String
  layout : String
  fieldData : JVal

/-- Arguments of `fm_update_record`. -/
structure UpdateArgs where
  database : String
  layout : String
  recordId : String
  fieldData : JVal

/-- Arguments of `fm_delete_record`. -/
structure DeleteArgs where
  database : String
  layout : String
  recordId : String

/-- Arguments of `fm_run_script`. -/
structure ScriptArgs where
  database : String
  layout : String
  script : String
  parameter : Option String

/-- `fm_get_metadata`: serve `metadata_<db>` from the data cache, else fetch
`GET /layouts`, cache the body and return its `response` field. -/
def fm_get_metadata (dbs : List (String × DbConfig)) (database : String)
    (be : Backend) (s : SrvState) : Except FMError (Option JVal) × SrvState :=
  match assocLookup database dbs with
  | none => (.error (.otherError "Database not found"), s)
  | some cfg =>
    let cacheKey := "metadata_" ++ database
    match assocLookup cacheKey s.dataCache with
    | some result => (.ok (assocLookup "response" result), s)
    | none =>
      match makeFileMakerRequest cfg "GET" "/layouts" none be s.session with
      | (.ok result, ss) =>
        (.ok (assocLookup "response" result),
          { session := ss, dataCache := assocSet cacheKey result s.dataCache })
      | (.error e, ss) => (.error e, { s with session := ss })

/-- `fm_get_layout_metadata`: serve `layout_<db>_<layout>` from the data
cache, else fetch, cache and return the `response` field. -/
def fm_get_layout_metadata (dbs : List (String × DbConfig)) (args : LayoutArgs)
    (be : Backend) (s : SrvState) : Except FMError (Option JVal) × SrvState :=
  match assocLookup args.database dbs with
  | none => (.error (.otherError "Database not found"), s)
  | some cfg =>
    let cacheKey := "layout_" ++ args.database ++ "_" ++ args.layout
    match assocLookup cacheKey s.dataCache with
    | some result => (.ok (assocLookup "response" result), s)
    | none =>
      match makeFileMakerRequest cfg "GET"
          ("/layouts/" ++ encodeURIComponent args.layout) none be s.session with
      | (.ok result, ss) =>
        (.ok (assocLookup "response" result),
          { session := ss, dataCache := assocSet cacheKey result s.dataCache })
      | (.error e, ss) => (.error e, { s with session := ss })

/-- `fm_get_scripts`: serve `scripts_<db>` from the data cache, else fetch
`GET /scripts`, cache and return the `response` field. -/
def fm_get_scripts (dbs : List (String × DbConfig)) (database : String)
    (be : Backend) (s : SrvState) : Except FMError (Option JVal) × SrvState :=
  match assocLookup database dbs with
  | none => (.error (.otherError "Database not found"), s)
  | some cfg =>
    let cacheKey := "scripts_" ++ database
    match assocLookup cacheKey s.dataCache with
    | some result => (.ok (assocLookup "response" result), s)
    | none =>
      match makeFileMakerRequest cfg "GET" "/scripts" none be s.session with
      | (.ok result, ss) =>
        (.ok (assocLookup "response" result),
          { session := ss, dataCache := assocSet cacheKey result s.dataCache })
      | (.error e, ss) => (.error e, { s with session := ss })

/-- The `_find` body of `fm_query_records`
(`{ query, ...(sort && {sort}), ...(limit && {limit}), ...(offset && {offset}) }`). -/
def queryRequestData (args : QueryArgs) : JVal :=
  .obj ([("query", .arr (args.query.getD []))]
    ++ (match args.sort with
        | some srt => [("sort", JVal.arr srt)]
        | none => [])
    ++ (match args.limit with
        | some l => if l ≠ 0 then [("limit", JVal.num l)] else []
        | none => [])
    ++ (match args.offset with
        | some o => if o ≠ 0 then [("offset", JVal.num o)] else []
        | none => []))

/-- The listing endpoint of `fm_query_records`, with its `_limit`/`_offset`
query string. -/
def queryListEndpoint (args : QueryArgs) : String :=
  let params : List (String × String) :=
    (match args.limit with
     | some l => if l ≠ 0 then [("_limit", toString l)] else []
     | none => [])
    ++ (match args.offset with
        | some o => if o ≠ 0 then [("_offset", toString o)] else []
        | none => [])
  let qs := String.intercalate "&" (params.map (fun p => p.1 ++ "=" ++ p.2))
  "/layouts/" ++ encodeURIComponent args.layout ++ "/records" ++
    (if qs = "" then "" else "?" ++ qs)

/-- `fm_query_records`: `POST .../_find` when a non-empty `query` array is
given, else `GET .../records`; the result's `response` field is returned and
the data cache is not consulted or written. -/
def fm_query_records (dbs : List (String × DbConfig)) (args : QueryArgs)
    (be : Backend) (s : SrvState) : Except FMError (Option JVal) × SrvState :=
  match assocLookup args.database dbs with
  | none => (.error (.otherError "Database not found"), s)
  | some cfg =>
    let hasQuery := match args.query with
      | some q => decide (q.length > 0)
      | none => false
    if hasQuery then
      match makeFileMakerRequest cfg "POST"
          ("/layouts/" ++ encodeURIComponent args.layout ++ "/_find")
          (some (queryRequestData args)) be s.session with
      | (.ok result, ss) => (.ok (assocLookup "response" result), { s with session := ss })
      | (.error e, ss) => (.error e, { s with session := ss })
    else
      match makeFileMakerRequest cfg "GET" (queryListEndpoint args) none be s.session with
      | (.ok result, ss) => (.ok (assocLookup "response" result), { s with session := ss })
      | (.error e, ss) => (.error e, { s with session := ss })

/-- `fm_create_record`: `POST .../records` with `{ fieldData }`; returns the
`response` field. -/
def fm_create_record (dbs : List (String × DbConfig)) (args : CreateArgs)
    (be : Backend) (s : SrvState) : Except FMError (Option JVal) × SrvState :=
  match assocLookup args.database dbs with
  | none => (.error (.otherError "Database not found"), s)
  | some cfg =>
    match makeFileMakerRequest cfg "POST"
        ("/layouts/" ++ encodeURIComponent args.layout ++ "/records")
        (some (.obj [("fieldData", args.fieldData)])) be s.session with
    | (.ok result, ss) => (.ok (assocLookup "response" result), { s with session := ss })
    | (.error e, ss) => (.error e, { s with session := ss })

/-- `fm_update_record`: `PATCH .../records/<id>` with `{ fieldData }`; returns
the `response` field. -/
def fm_update_record (dbs : List (String × DbConfig)) (args : UpdateArgs)
    (be : Backend) (s : SrvState) : Except FMError (Option JVal) × SrvState :=
  match assocLookup args.database dbs with
  | none => (.error (.otherError "Database not found"), s)
  | some cfg =>
    match makeFileMakerRequest cfg "PATCH"
        ("/layouts/" ++ encodeURIComponent args.layout ++ "/records/" ++ args.recordId)
        (some (.obj [("fieldData", args.fieldData)])) be s.session with
    | (.ok result, ss) => (.ok (assocLookup "response" result), { s with session := ss })
    | (.error e, ss) => (.error e, { s with session := ss })

/-- `fm_delete_record`: `DELETE .../records/<id>`; returns
`result.response || { success: true }`. -/
def fm_delete_record (dbs : List (String × DbConfig)) (args : DeleteArgs)
    (be : Backend) (s : SrvState) : Except FMError (Option JVal) × SrvState :=
  match assocLookup args.database dbs with
  | none => (.error (.otherError "Database not found"), s)
  | some cfg =>
    match makeFileMakerRequest cfg "DELETE"
        ("/layouts/" ++ encodeURIComponent args.layout ++ "/records/" ++ args.recordId)
        none be s.session with
    | (.ok result, ss) =>
      (.ok (some (jsOr (assocLookup "response" result) successObj)), { s with session := ss })
    | (.error e, ss) => (.error e, { s with session := ss })

/-- The script endpoint, with the percent-encoded optional parameter appended
when truthy. -/
def scriptEndpoint (args : ScriptArgs) : String :=
  "/layouts/" ++ encodeURIComponent args.layout ++ "/script/" ++
    encodeURIComponent args.script ++
    (match args.parameter with
     | some p => if p ≠ "" then "?script.param=" ++ encodeURIComponent p else ""
     | none => "")

/-- `fm_run_script`: `GET .../script/<name>`; returns
`result.response || { success: true }`. -/
def fm_run_script (dbs : List (String × DbConfig)) (args : ScriptArgs)
    (be : Backend) (s : SrvState) : Except FMError (Option JVal) × SrvState :=
  match assocLookup args.database dbs with
  | none => (.error (.otherError "Database not found"), s)
  | some cfg =>
    match makeFileMakerRequest cfg "GET" (scriptEndpoint args) none be s.session with
    | (.ok result, ss) =>
      (.ok (some (jsOr (assocLookup "response" result) successObj)), { s with session := ss })
    | (.error e, ss) => (.error e, { s with session := ss })

/-- `fm_clear_cache`: flush the named cache(s) and return the confirmation
text; an unknown scope falls through the `switch` and clears nothing. -/
def fm_clear_cache (ty : String) (s : SrvState) : String × SrvState :=
  let s₁ :=
    if ty = "data" then { s with dataCache := [] }
    else if ty = "session" then { s with session := { s.session with sessionCache := [] } }
    else if ty = "all" then
      { session := { s.session with sessionCache := [] }, dataCache := [] }
    else s
  ("✅ " ++ ty ++ " cache cleared", s₁)

/-!
## Embedding of `src/filemaker-client.ts` (the TypeScript client)

Only the parts the claims touch: `authenticate`, `request` and
`findRecords` with its `JSON.stringify`-built cache key.
-/

/-- The `FileMakerConfig` of the TypeScript client (here `username` and
`password` are plain strings — `index.ts` passes `username || ''`). -/
structure TSConfig where
  server : String
  database : String
  username : String
  password : String
  protocol : String
  apiVersion : String

/-- A cached session of the TypeScript client (`lastActivity` is stored but
never read back). -/
structure TSSession where
  token : String
  lastActivity : Nat

/-- The part of a `FileMakerClient`'s state its `authenticate` and `request`
methods reference (the result cache is only touched by the read methods). -/
structure TSCore where
  sessionCache : List (String × TSSession)
  sessionInfo : Option TSSession
  authLog : List AuthRequest
  dataLog : List DataRequest

/-- Full state of one `FileMakerClient` instance. -/
structure TSState where
  core : TSCore
  cache : List (String × Body)

/-- Backend oracle for the TypeScript client; `now` supplies `Date.now()` for
the n-th authentication. -/
structure TSBackend where
  authResult : Nat → AuthOutcome
  dataResult : Nat → DataOutcome
  now : Nat → Nat

/-- `FileMakerClient.authenticate`: a present cache entry (an object, hence
always truthy) is reused; otherwise authenticate remotely and cache the
`SessionInfo`. -/
def tsAuthenticate (cfg : TSConfig) (be : TSBackend) (s : TSCore) :
    Except FMError String × TSCore :=
  let cacheKey := "session_" ++ cfg.database
  match assocLookup cacheKey s.sessionCache with
  | some cachedSession => (.ok cachedSession.token, { s with sessionInfo := some cachedSession })
  | none =>
    let req : AuthRequest :=
      { url := cfg.protocol ++ "://" ++ cfg.server ++ "/fmi/data/" ++ cfg.apiVersion ++
          "/databases/" ++ cfg.database ++ "/sessions",
        username := some cfg.username, password := some cfg.password }
    let s₁ := { s with authLog := s.authLog ++ [req] }
    match be.authResult s.authLog.length with
    | .ok token =>
      let info : TSSession := { token := token, lastActivity := be.now s.authLog.length }
      (.ok token,
        { s₁ with sessionInfo := some info,
                  sessionCache := assocSet cacheKey info s₁.sessionCache })
    | .fail f =>
      (.error (.authError ("Authentication failed: " ++ failureMsg f)), s₁)

/-- `FileMakerClient.request`: authenticate, issue the call, and on a 401
delete the session entry, re-authenticate and retry exactly once. -/
def tsRequest (cfg : TSConfig) (method endpoint : String) (data : Option JVal)
    (be : TSBackend) (s : TSCore) : Except FMError Body × TSCore :=
  match tsAuthenticate cfg be s with
  | (.error e, s₁) => (.error e, s₁)
  | (.ok token, s₁) =>
    let req : DataRequest :=
      { method := method, url := endpoint, body := data, token := token }
    let s₂ := { s₁ with dataLog := s₁.dataLog ++ [req] }
    match be.dataResult s₁.dataLog.length with
    | .ok body => (.ok body, s₂)
    | .fail f =>
      if failureStatus f = some 401 then
        let s₃ := { s₂ with sessionCache := assocErase ("session_" ++ cfg.database) s₂.sessionCache }
        match tsAuthenticate cfg be s₃ with
        | (.error e, s₄) => (.error e, s₄)
        | (.ok newToken, s₄) =>
          let req₂ : DataRequest :=
            { method := method, url := endpoint, body := data, token := newToken }
          let s₅ := { s₄ with dataLog := s₄.dataLog ++ [req₂] }
          match be.dataResult s₄.dataLog.length with
          | .ok body => (.ok body, s₅)
          | .fail f₂ => (.error (.rawFailure f₂), s₅)
      else
        (.error (.requestError ("Request failed: " ++ failureMsg f)), s₂)

/-- The result-cache key of `FileMakerClient.findRecords`:
`` `find_${database}_${layoutName}_${JSON.stringify(query)}` ``. -/
def findRecordsCacheKey (cfg : TSConfig) (layoutName : String) (query : JVal) : String :=
  "find_" ++ cfg.database ++ "_" ++ layoutName ++ "_" ++ jsonStringify query

/-- `FileMakerClient.findRecords`: serve a present cache entry, else
`POST .../_find`, cache the body under the stringified-query key. -/
def tsFindRecords (cfg : TSConfig) (layoutName : String) (query : JVal)
    (be : TSBackend) (s : TSState) : Except FMError Body × TSState :=
  let cacheKey := findRecordsCacheKey cfg layoutName query
  match assocLookup cacheKey s.cache with
  | some cached => (.ok cached, s)
  | none =>
    match tsRequest cfg "POST" ("/layouts/" ++ encodeURIComponent layoutName ++ "/_find")
        (some query) be s.core with
    | (.ok result, c₁) => (.ok result, { core := c₁, cache := assocSet cacheKey result s.cache })
    | (.error e, c₁) => (.error e, { s with core := c₁ })

/-!
## Helper lemmas about the session layer
-/

theorem authenticateRemote_dataLog (cfg : DbConfig) (be : Backend) (s : SessionState) :
    ((authenticateRemote cfg be s).2).dataLog = s.dataLog := by
  unfold authenticateRemote
  cases be.authResult s.authLog.length <;> rfl

theorem authenticateFileMaker_dataLog (cfg : DbConfig) (be : Backend) (s : SessionState) :
    ((authenticateFileMaker cfg be s).2).dataLog = s.dataLog := by
  unfold authenticateFileMaker
  cases h : assocLookup (sessionKey cfg) s.sessionCache with
  | none => exact authenticateRemote_dataLog cfg be s
  | some t =>
    by_cases ht : t = ""
    · simpa [ht] using authenticateRemote_dataLog cfg be s
    · simp [ht]

theorem authenticateRemote_authLog (cfg : DbConfig) (be : Backend) (s : SessionState) :
    ((authenticateRemote cfg be s).2).authLog = s.authLog ++ [authRequestOf cfg] := by
  unfold authenticateRemote
  cases be.authResult s.authLog.length <;> rfl

theorem authenticateFileMaker_authLog (cfg : DbConfig) (be : Backend) (s : SessionState) :
    ((authenticateFileMaker cfg be s).2).authLog = s.authLog ∨
    ((authenticateFileMaker cfg be s).2).authLog = s.authLog ++ [authRequestOf cfg] := by
  unfold authenticateFileMaker
  cases h : assocLookup (sessionKey cfg) s.sessionCache with
  | none => exact Or.inr (authenticateRemote_authLog cfg be s)
  | some t =>
    by_cases ht : t = ""
    · simpa [ht] using Or.inr (authenticateRemote_authLog cfg be s)
    · simp [ht]

/-- On a cache miss, `authenticateFileMaker` is the remote call. -/
theorem authenticateFileMaker_of_miss (cfg : DbConfig) (be : Backend) (s : SessionState)
    (h : assocLookup (sessionKey cfg) s.sessionCache = none) :
    authenticateFileMaker cfg be s = authenticateRemote cfg be s := by
  unfold authenticateFileMaker
  rw [h]

/-- A cached empty-string token is falsy, so `authenticateFileMaker` still
performs the remote call. -/
theorem authenticateFileMaker_of_empty (cfg : DbConfig) (be : Backend) (s : SessionState)
    (h : assocLookup (sessionKey cfg) s.sessionCache = some "") :
    authenticateFileMaker cfg be s = authenticateRemote cfg be s := by
  unfold authenticateFileMaker
  rw [h]
  simp

/-- A cached non-empty token is returned as-is, with no state change. -/
theorem authenticateFileMaker_of_hit (cfg : DbConfig) (be : Backend) (s : SessionState)
    (t : String) (h : assocLookup (sessionKey cfg) s.sessionCache = some t) (ht : t ≠ "") :
    authenticateFileMaker cfg be s = (.ok t, s) := by
  unfold authenticateFileMaker
  rw [h]
  simp [ht]

theorem authenticateFileMaker_error_authLog (cfg : DbConfig) (be : Backend) (s : SessionState)
    (e : FMError) (s' : SessionState) (h : authenticateFileMaker cfg be s = (.error e, s')) :
    s'.authLog = s.authLog ++ [authRequestOf cfg] := by
  have hlog := authenticateRemote_authLog cfg be s
  cases hq : assocLookup (sessionKey cfg) s.sessionCache with
  | none =>
    rw [authenticateFileMaker_of_miss cfg be s hq] at h
    rw [h] at hlog
    exact hlog
  | some t =>
    by_cases ht : t = ""
    · rw [ht] at hq
      rw [authenticateFileMaker_of_empty cfg be s hq] at h
      rw [h] at hlog
      exact hlog
    · rw [authenticateFileMaker_of_hit cfg be s t hq ht] at h
      simp at h

theorem authenticateRemote_ok (cfg : DbConfig) (be : Backend) (s : SessionState)
    (tok : String) (h : be.authResult s.authLog.length = .ok tok) :
    authenticateRemote cfg be s =
      (.ok tok, ⟨assocSet (sessionKey cfg) tok s.sessionCache,
                 s.authLog ++ [authRequestOf cfg], s.dataLog⟩) := by
  unfold authenticateRemote
  rw [h]

theorem authenticateRemote_fail (cfg : DbConfig) (be : Backend) (s : SessionState)
    (f : RemoteFailure) (h : be.authResult s.authLog.length = .fail f) :
    authenticateRemote cfg be s =
      (.error (.authError ("Authentication failed for " ++ cfg.database ++ ": " ++ failureMsg f)),
       ⟨s.sessionCache, s.authLog ++ [authRequestOf cfg], s.dataLog⟩) := by
  unfold authenticateRemote
  rw [h]

/-- C4 (amended): `getToken` (`authenticateFileMaker`) returns the cached
token with no remote authentication call whenever the Credential Cache holds a
live entry with a **non-empty** token (the code's truthiness test treats a
cached empty-string token as a miss); on a miss it performs exactly one remote
authentication call, stores the returned token in the Credential Cache on
success, and on failure raises an `AuthenticationError` carrying the backend's
message while leaving the Credential Cache unchanged.  Consequently two
successive `getToken` calls on the same target perform at most one remote
authentication call (given the backend hands out a non-empty token). -/
theorem getToken_contract :
    (∀ (cfg : DbConfig) (be : Backend) (s : SessionState) (t : String),
       assocLookup (sessionKey cfg) s.sessionCache = some t → t ≠ "" →
       authenticateFileMaker cfg be s = (.ok t, s))
    ∧ (∀ (cfg : DbConfig) (be : Backend) (s : SessionState) (tok : String),
       assocLookup (sessionKey cfg) s.sessionCache = none →
       be.authResult s.authLog.length = .ok tok →
       authenticateFileMaker cfg be s =
         (.ok tok, ⟨assocSet (sessionKey cfg) tok s.sessionCache,
                    s.authLog ++ [authRequestOf cfg], s.dataLog⟩))
    ∧ (∀ (cfg : DbConfig) (be : Backend) (s : SessionState) (f : RemoteFailure),
       assocLookup (sessionKey cfg) s.sessionCache = none →
       be.authResult s.authLog.length = .fail f →
       authenticateFileMaker cfg be s =
         (.error (.authError ("Authentication failed for " ++ cfg.database ++ ": " ++ failureMsg f)),
          ⟨s.sessionCache, s.authLog ++ [authRequestOf cfg], s.dataLog⟩))
    ∧ (∀ (cfg : DbConfig) (be : Backend) (s : SessionState) (tok : String),
       be.authResult s.authLog.length = .ok tok → tok ≠ "" →
       ((authenticateFileMaker cfg be (authenticateFileMaker cfg be s).2).2).authLog.length
         ≤ s.authLog.length + 1) := by
  refine ⟨?_, ?_, ?_, ?_⟩
  · intro cfg be s t h ht
    exact authenticateFileMaker_of_hit cfg be s t h ht
  · intro cfg be s tok h htok
    rw [authenticateFileMaker_of_miss cfg be s h]
    exact authenticateRemote_ok cfg be s tok htok
  · intro cfg be s f h hf
    rw [authenticateFileMaker_of_miss cfg be s h]
    exact authenticateRemote_fail cfg be s f hf
  · intro cfg be s tok htok hne
    cases hq : assocLookup (sessionKey cfg) s.sessionCache with
    | none =>
      rw [authenticateFileMaker_of_miss cfg be s hq, authenticateRemote_ok cfg be s tok htok]
      rw [authenticateFileMaker_of_hit cfg be _ tok (assocLookup_set_self _ _ _) hne]
      simp
    | some t =>
      by_cases ht : t = ""
      · rw [ht] at hq
        rw [authenticateFileMaker_of_empty cfg be s hq, authenticateRemote_ok cfg be s tok htok]
        rw [authenticateFileMaker_of_hit cfg be _ tok (assocLookup_set_self _ _ _) hne]
        simp
      · rw [authenticateFileMaker_of_hit cfg be s t hq ht,
            authenticateFileMaker_of_hit cfg be s t hq ht]
        exact Nat.le_succ _

/-- A sample configured target (the `Sales` database). -/
def cfgA : DbConfig :=
  { server := "fm.example.com", database := "Sales", username := some "alice",
    password := some "pw", apiKey := none, protocol := "https", apiVersion := "v1" }

/-- A backend whose first session call hands out the empty-string token and
whose later ones hand out `"TOK2"`; data calls always succeed. -/
def beEmptyToken : Backend :=
  { authResult := fun n => if n = 0 then .ok "" else .ok "TOK2",
    dataResult := fun _ => .ok [("response", .obj [])] }

/-- C4 counterexample: after the backend hands out an empty-string token, the
Credential Cache holds a live entry for the target, yet the next `getToken`
still performs a remote authentication call (the claim's "returns the cached
token without any remote authentication call whenever the Credential Cache
holds a live entry" fails on falsy tokens). -/
theorem getToken_live_entry_still_reauthenticates :
    assocLookup (sessionKey cfgA)
        ((authenticateFileMaker cfgA beEmptyToken initState.session).2).sessionCache = some "" ∧
    ((authenticateFileMaker cfgA beEmptyToken initState.session).2).authLog.length = 1 ∧
    ((authenticateFileMaker cfgA beEmptyToken
        ((authenticateFileMaker cfgA beEmptyToken initState.session).2)).2).authLog.length = 2 := by
  refine ⟨rfl, rfl, rfl⟩

/-- A session-layer state whose Credential Cache holds a live token for
`cfgA`. -/
def sHit : SessionState :=
  { sessionCache := [("session_Sales", "TOK")], authLog := [], dataLog := [] }

/-- Witness for `getToken_contract`: at a concrete state with a live
non-empty token, `getToken` returns it and changes nothing. -/
theorem getToken_contract_witness :
    authenticateFileMaker cfgA beEmptyToken sHit = (.ok "TOK", sHit) :=
  getToken_contract.1 cfgA beEmptyToken sHit "TOK" rfl (by decide)


/-- C1: on a first data attempt rejected with the authorization-rejection
status (HTTP 401), `makeFileMakerRequest` deletes the session-cache entry for
the target, obtains a fresh token by re-authenticating (exactly one more
session call), and retries the data call exactly once with the new token; a
failure of that second attempt propagates as-is (the raw axios failure, no
wrapping, no further retry).  A failure with any other status, or a network
error, is propagated immediately with no invalidation and no retry.  In every
case at most two data attempts are issued per call. -/
theorem makeFileMakerRequest_retry_contract :
    (∀ (cfg : DbConfig) (method endpoint : String) (data : Option JVal)
       (be : Backend) (s : SessionState),
       ((makeFileMakerRequest cfg method endpoint data be s).2).dataLog.length
         ≤ s.dataLog.length + 2)
    ∧ (∀ (cfg : DbConfig) (method endpoint : String) (data : Option JVal)
         (be : Backend) (s : SessionState) (t : String) (s₁ : SessionState)
         (f : RemoteFailure) (tok₂ : String),
       authenticateFileMaker cfg be s = (.ok t, s₁) →
       be.dataResult s₁.dataLog.length = .fail f →
       failureStatus f = some 401 →
       be.authResult s₁.authLog.length = .ok tok₂ →
       makeFileMakerRequest cfg method endpoint data be s =
         ((match be.dataResult (s₁.dataLog.length + 1) with
           | .ok body => .ok body
           | .fail f₂ => .error (.rawFailure f₂)),
          ⟨assocSet (sessionKey cfg) tok₂ (assocErase (sessionKey cfg) s₁.sessionCache),
           s₁.authLog ++ [authRequestOf cfg],
           s₁.dataLog ++ [dataRequestOf cfg method endpoint data t,
                          dataRequestOf cfg method endpoint data tok₂]⟩))
    ∧ (∀ (cfg : DbConfig) (method endpoint : String) (data : Option JVal)
         (be : Backend) (s : SessionState) (t : String) (s₁ : SessionState)
         (f : RemoteFailure),
       authenticateFileMaker cfg be s = (.ok t, s₁) →
       be.dataResult s₁.dataLog.length = .fail f →
       failureStatus f ≠ some 401 →
       makeFileMakerRequest cfg method endpoint data be s =
         (.error (.requestError ("Request failed: " ++ failureMsg f)),
          ⟨s₁.sessionCache, s₁.authLog,
           s₁.dataLog ++ [dataRequestOf cfg method endpoint data t]⟩)) := by
  refine ⟨?_, ?_, ?_⟩
  · intro cfg method endpoint data be s
    unfold makeFileMakerRequest
    cases hA : authenticateFileMaker cfg be s with
    | mk r s₁ =>
      have hd1 : s₁.dataLog = s.dataLog := by
        have h := authenticateFileMaker_dataLog cfg be s
        rw [hA] at h
        exact h
      cases r with
      | error e =>
        dsimp only
        rw [hd1]
        omega
      | ok t =>
        dsimp only
        cases hD : be.dataResult s₁.dataLog.length with
        | ok body =>
          dsimp only
          simp only [List.length_append, List.length_cons, List.length_nil, hd1]
          omega
        | fail f =>
          dsimp only
          by_cases h401 : failureStatus f = some 401
          · rw [if_pos h401]
            cases hA2 : authenticateFileMaker cfg be
                ⟨assocErase (sessionKey cfg) s₁.sessionCache,
                 s₁.authLog, s₁.dataLog ++ [dataRequestOf cfg method endpoint data t]⟩ with
            | mk r₂ s₄ =>
              have hd4 : s₄.dataLog = s₁.dataLog ++ [dataRequestOf cfg method endpoint data t] := by
                have h := authenticateFileMaker_dataLog cfg be
                  ⟨assocErase (sessionKey cfg) s₁.sessionCache,
                   s₁.authLog, s₁.dataLog ++ [dataRequestOf cfg method endpoint data t]⟩
                rw [hA2] at h
                exact h
              cases r₂ with
              | error e =>
                dsimp only
                simp only [hd4, hd1, List.length_append, List.length_cons, List.length_nil]
                omega
              | ok tok₂ =>
                dsimp only
                cases hD2 : be.dataResult s₄.dataLog.length with
                | ok body =>
                  dsimp only
                  simp only [hd4, hd1, List.length_append, List.length_cons, List.length_nil]
                  omega
                | fail f₂ =>
                  dsimp only
                  simp only [hd4, hd1, List.length_append, List.length_cons, List.length_nil]
                  omega
          · rw [if_neg h401]
            dsimp only
            simp only [hd1, List.length_append, List.length_cons, List.length_nil]
            omega
  · intro cfg method endpoint data be s t s₁ f tok₂ hA hD h401 hA2
    unfold makeFileMakerRequest
    rw [hA]
    dsimp only
    rw [hD]
    dsimp only
    rw [if_pos h401]
    have hmiss : assocLookup (sessionKey cfg)
        ((⟨assocErase (sessionKey cfg) s₁.sessionCache, s₁.authLog,
           s₁.dataLog ++ [dataRequestOf cfg method endpoint data t]⟩ : SessionState)).sessionCache
        = none := assocLookup_erase_self _ _
    rw [authenticateFileMaker_of_miss cfg be
        ⟨assocErase (sessionKey cfg) s₁.sessionCache, s₁.authLog,
         s₁.dataLog ++ [dataRequestOf cfg method endpoint data t]⟩ hmiss]
    rw [authenticateRemote_ok cfg be
        ⟨assocErase (sessionKey cfg) s₁.sessionCache, s₁.authLog,
         s₁.dataLog ++ [dataRequestOf cfg method endpoint data t]⟩ tok₂ hA2]
    dsimp only
    have hlen : (s₁.dataLog ++ [dataRequestOf cfg method endpoint data t]).length
        = s₁.dataLog.length + 1 := by simp
    rw [hlen]
    cases hD2 : be.dataResult (s₁.dataLog.length + 1) with
    | ok body =>
      dsimp only
      simp [List.append_assoc]
    | fail f₂ =>
      dsimp only
      simp [List.append_assoc]
  · intro cfg method endpoint data be s t s₁ f hA hD h401
    unfold makeFileMakerRequest
    rw [hA]
    dsimp only
    rw [hD]
    dsimp only
    rw [if_neg h401]

/-- A backend that rejects the first data attempt with 401 and the retry with
500; session calls hand out `"T1"` then `"T2"`. -/
def beRetry : Backend :=
  { authResult := fun n => if n = 0 then .ok "T1" else .ok "T2",
    dataResult := fun n => if n = 0 then .fail (.http 401 []) else .fail (.http 500 []) }

/-- Witness for `makeFileMakerRequest_retry_contract`: with `beRetry`, the
call invalidates the session, re-authenticates (two session requests in the
log), issues exactly two data attempts (first with `"T1"`, the retry with
`"T2"`), and propagates the retry's 500 failure raw. -/
theorem makeFileMakerRequest_retry_contract_witness :
    makeFileMakerRequest cfgA "GET" "/layouts" none beRetry initState.session =
      (.error (.rawFailure (.http 500 [])),
       ⟨assocSet (sessionKey cfgA) "T2" (assocErase (sessionKey cfgA)
          (assocSet (sessionKey cfgA) "T1" [])),
        [authRequestOf cfgA, authRequestOf cfgA],
        [dataRequestOf cfgA "GET" "/layouts" none "T1",
         dataRequestOf cfgA "GET" "/layouts" none "T2"]⟩) := by
  have h := makeFileMakerRequest_retry_contract.2.1 cfgA "GET" "/layouts" none beRetry
    initState.session "T1"
    ⟨assocSet (sessionKey cfgA) "T1" [], [authRequestOf cfgA], []⟩
    (.http 401 []) "T2" rfl rfl rfl rfl
  simpa using h

/-!
## Cache behaviour of the read handlers
-/

theorem fm_get_metadata_hit (dbs : List (String × DbConfig)) (database : String)
    (be : Backend) (s : SrvState) (cfg : DbConfig) (v : Body)
    (hdb : assocLookup database dbs = some cfg)
    (hv : assocLookup ("metadata_" ++ database) s.dataCache = some v) :
    fm_get_metadata dbs database be s = (.ok (assocLookup "response" v), s) := by
  unfold fm_get_metadata
  rw [hdb]
  dsimp only
  rw [hv]

theorem fm_get_metadata_miss_ok (dbs : List (String × DbConfig)) (database : String)
    (be : Backend) (s : SrvState) (cfg : DbConfig) (result : Body) (ss : SessionState)
    (hdb : assocLookup database dbs = some cfg)
    (hv : assocLookup ("metadata_" ++ database) s.dataCache = none)
    (hr : makeFileMakerRequest cfg "GET" "/layouts" none be s.session = (.ok result, ss)) :
    fm_get_metadata dbs database be s =
      (.ok (assocLookup "response" result),
       ⟨ss, assocSet ("metadata_" ++ database) result s.dataCache⟩) := by
  unfold fm_get_metadata
  rw [hdb]
  dsimp only
  rw [hv]
  dsimp only
  rw [hr]

theorem fm_get_metadata_miss_err (dbs : List (String × DbConfig)) (database : String)
    (be : Backend) (s : SrvState) (cfg : DbConfig) (e : FMError) (ss : SessionState)
    (hdb : assocLookup database dbs = some cfg)
    (hv : assocLookup ("metadata_" ++ database) s.dataCache = none)
    (hr : makeFileMakerRequest cfg "GET" "/layouts" none be s.session = (.error e, ss)) :
    fm_get_metadata dbs database be s = (.error e, ⟨ss, s.dataCache⟩) := by
  unfold fm_get_metadata
  rw [hdb]
  dsimp only
  rw [hv]
  dsimp only
  rw [hr]

theorem fm_get_metadata_idem (dbs : List (String × DbConfig)) (database : String)
    (be : Backend) (s : SrvState) (x : Option JVal)
    (hok : (fm_get_metadata dbs database be s).1 = .ok x) :
    fm_get_metadata dbs database be (fm_get_metadata dbs database be s).2 =
      (.ok x, (fm_get_metadata dbs database be s).2) := by
  cases hdb : assocLookup database dbs with
  | none =>
    have h1 : fm_get_metadata dbs database be s = (.error (.otherError "Database not found"), s) := by
      unfold fm_get_metadata
      rw [hdb]
    rw [h1] at hok
    simp at hok
  | some cfg =>
    cases hv : assocLookup ("metadata_" ++ database) s.dataCache with
    | some v =>
      have h1 := fm_get_metadata_hit dbs database be s cfg v hdb hv
      rw [h1] at hok ⊢
      have hx : assocLookup "response" v = x := by simpa using hok
      subst hx
      dsimp only
      exact fm_get_metadata_hit dbs database be s cfg v hdb hv
    | none =>
      cases hr : makeFileMakerRequest cfg "GET" "/layouts" none be s.session with
      | mk r ss =>
        cases r with
        | error e =>
          have h1 := fm_get_metadata_miss_err dbs database be s cfg e ss hdb hv hr
          rw [h1] at hok
          simp at hok
        | ok result =>
          have h1 := fm_get_metadata_miss_ok dbs database be s cfg result ss hdb hv hr
          rw [h1] at hok ⊢
          have hx : assocLookup "response" result = x := by simpa using hok
          subst hx
          dsimp only
          exact fm_get_metadata_hit dbs database be _ cfg result hdb
            (assocLookup_set_self _ _ _)

theorem fm_get_layout_metadata_hit (dbs : List (String × DbConfig)) (args : LayoutArgs)
    (be : Backend) (s : SrvState) (cfg : DbConfig) (v : Body)
    (hdb : assocLookup args.database dbs = some cfg)
    (hv : assocLookup ("layout_" ++ args.database ++ "_" ++ args.layout) s.dataCache = some v) :
    fm_get_layout_metadata dbs args be s = (.ok (assocLookup "response" v), s) := by
  unfold fm_get_layout_metadata
  rw [hdb]
  dsimp only
  rw [hv]

theorem fm_get_layout_metadata_miss_ok (dbs : List (String × DbConfig)) (args : LayoutArgs)
    (be : Backend) (s : SrvState) (cfg : DbConfig) (result : Body) (ss : SessionState)
    (hdb : assocLookup args.database dbs = some cfg)
    (hv : assocLookup ("layout_" ++ args.database ++ "_" ++ args.layout) s.dataCache = none)
    (hr : makeFileMakerRequest cfg "GET" ("/layouts/" ++ encodeURIComponent args.layout)
        none be s.session = (.ok result, ss)) :
    fm_get_layout_metadata dbs args be s =
      (.ok (assocLookup "response" result),
       ⟨ss, assocSet ("layout_" ++ args.database ++ "_" ++ args.layout) result s.dataCache⟩) := by
  unfold fm_get_layout_metadata
  rw [hdb]
  dsimp only
  rw [hv]
  dsimp only
  rw [hr]

theorem fm_get_layout_metadata_miss_err (dbs : List (String × DbConfig)) (args : LayoutArgs)
    (be : Backend) (s : SrvState) (cfg : DbConfig) (e : FMError) (ss : SessionState)
    (hdb : assocLookup args.database dbs = some cfg)
    (hv : assocLookup ("layout_" ++ args.database ++ "_" ++ args.layout) s.dataCache = none)
    (hr : makeFileMakerRequest cfg "GET" ("/layouts/" ++ encodeURIComponent args.layout)
        none be s.session = (.error e, ss)) :
    fm_get_layout_metadata dbs args be s = (.error e, ⟨ss, s.dataCache⟩) := by
  unfold fm_get_layout_metadata
  rw [hdb]
  dsimp only
  rw [hv]
  dsimp only
  rw [hr]

theorem fm_get_layout_metadata_idem (dbs : List (String × DbConfig)) (args : LayoutArgs)
    (be : Backend) (s : SrvState) (x : Option JVal)
    (hok : (fm_get_layout_metadata dbs args be s).1 = .ok x) :
    fm_get_layout_metadata dbs args be (fm_get_layout_metadata dbs args be s).2 =
      (.ok x, (fm_get_layout_metadata dbs args be s).2) := by
  cases hdb : assocLookup args.database dbs with
  | none =>
    have h1 : fm_get_layout_metadata dbs args be s =
        (.error (.otherError "Database not found"), s) := by
      unfold fm_get_layout_metadata
      rw [hdb]
    rw [h1] at hok
    simp at hok
  | some cfg =>
    cases hv : assocLookup ("layout_" ++ args.database ++ "_" ++ args.layout) s.dataCache with
    | some v =>
      have h1 := fm_get_layout_metadata_hit dbs args be s cfg v hdb hv
      rw [h1] at hok ⊢
      have hx : assocLookup "response" v = x := by simpa using hok
      subst hx
      dsimp only
      exact fm_get_layout_metadata_hit dbs args be s cfg v hdb hv
    | none =>
      cases hr : makeFileMakerRequest cfg "GET" ("/layouts/" ++ encodeURIComponent args.layout)
          none be s.session with
      | mk r ss =>
        cases r with
        | error e =>
          have h1 := fm_get_layout_metadata_miss_err dbs args be s cfg e ss hdb hv hr
          rw [h1] at hok
          simp at hok
        | ok result =>
          have h1 := fm_get_layout_metadata_miss_ok dbs args be s cfg result ss hdb hv hr
          rw [h1] at hok ⊢
          have hx : assocLookup "response" result = x := by simpa using hok
          subst hx
          dsimp only
          exact fm_get_layout_metadata_hit dbs args be _ cfg result hdb
            (assocLookup_set_self _ _ _)

theorem fm_get_scripts_hit (dbs : List (String × DbConfig)) (database : String)
    (be : Backend) (s : SrvState) (cfg : DbConfig) (v : Body)
    (hdb : assocLookup database dbs = some cfg)
    (hv : assocLookup ("scripts_" ++ database) s.dataCache = some v) :
    fm_get_scripts dbs database be s = (.ok (assocLookup "response" v), s) := by
  unfold fm_get_scripts
  rw [hdb]
  dsimp only
  rw [hv]

theorem fm_get_scripts_miss_ok (dbs : List (String × DbConfig)) (database : String)
    (be : Backend) (s : SrvState) (cfg : DbConfig) (result : Body) (ss : SessionState)
    (hdb : assocLookup database dbs = some cfg)
    (hv : assocLookup ("scripts_" ++ database) s.dataCache = none)
    (hr : makeFileMakerRequest cfg "GET" "/scripts" none be s.session = (.ok result, ss)) :
    fm_get_scripts dbs database be s =
      (.ok (assocLookup "response" result),
       ⟨ss, assocSet ("scripts_" ++ database) result s.dataCache⟩) := by
  unfold fm_get_scripts
  rw [hdb]
  dsimp only
  rw [hv]
  dsimp only
  rw [hr]

theorem fm_get_scripts_miss_err (dbs : List (String × DbConfig)) (database : String)
    (be : Backend) (s : SrvState) (cfg : DbConfig) (e : FMError) (ss : SessionState)
    (hdb : assocLookup database dbs = some cfg)
    (hv : assocLookup ("scripts_" ++ database) s.dataCache = none)
    (hr : makeFileMakerRequest cfg "GET" "/scripts" none be s.session = (.error e, ss)) :
    fm_get_scripts dbs database be s = (.error e, ⟨ss, s.dataCache⟩) := by
  unfold fm_get_scripts
  rw [hdb]
  dsimp only
  rw [hv]
  dsimp only
  rw [hr]

theorem fm_get_scripts_idem (dbs : List (String × DbConfig)) (database : String)
    (be : Backend) (s : SrvState) (x : Option JVal)
    (hok : (fm_get_scripts dbs database be s).1 = .ok x) :
    fm_get_scripts dbs database be (fm_get_scripts dbs database be s).2 =
      (.ok x, (fm_get_scripts dbs database be s).2) := by
  cases hdb : assocLookup database dbs with
  | none =>
    have h1 : fm_get_scripts dbs database be s = (.error (.otherError "Database not found"), s) := by
      unfold fm_get_scripts
      rw [hdb]
    rw [h1] at hok
    simp at hok
  | some cfg =>
    cases hv : assocLookup ("scripts_" ++ database) s.dataCache with
    | some v =>
      have h1 := fm_get_scripts_hit dbs database be s cfg v hdb hv
      rw [h1] at hok ⊢
      have hx : assocLookup "response" v = x := by simpa using hok
      subst hx
      dsimp only
      exact fm_get_scripts_hit dbs database be s cfg v hdb hv
    | none =>
      cases hr : makeFileMakerRequest cfg "GET" "/scripts" none be s.session with
      | mk r ss =>
        cases r with
        | error e =>
          have h1 := fm_get_scripts_miss_err dbs database be s cfg e ss hdb hv hr
          rw [h1] at hok
          simp at hok
        | ok result =>
          have h1 := fm_get_scripts_miss_ok dbs database be s cfg result ss hdb hv hr
          rw [h1] at hok ⊢
          have hx : assocLookup "response" result = x := by simpa using hok
          subst hx
          dsimp only
          exact fm_get_scripts_hit dbs database be _ cfg result hdb
            (assocLookup_set_self _ _ _)

/-- `fm_query_records` neither reads nor writes the data cache: its outcome
and session evolution are independent of the data cache contents, and the
data cache passes through unchanged. -/
theorem fm_query_records_dataCache_indep (dbs : List (String × DbConfig)) (args : QueryArgs)
    (be : Backend) (ses : SessionState) (d₁ d₂ : List (String × Body)) :
    fm_query_records dbs args be ⟨ses, d₂⟩ =
      ((fm_query_records dbs args be ⟨ses, d₁⟩).1,
       ⟨((fm_query_records dbs args be ⟨ses, d₁⟩).2).session, d₂⟩) := by
  unfold fm_query_records
  cases hdb : assocLookup args.database dbs with
  | none => rfl
  | some cfg =>
    dsimp only
    cases hq : (match args.query with
      | some q => decide (q.length > 0)
      | none => false) with
    | true =>
      rw [if_pos rfl]
      cases hr : makeFileMakerRequest cfg "POST"
          ("/layouts/" ++ encodeURIComponent args.layout ++ "/_find")
          (some (queryRequestData args)) be ses with
      | mk r ss => cases r <;> rfl
    | false =>
      rw [if_neg (by simp)]
      cases hr : makeFileMakerRequest cfg "GET" (queryListEndpoint args) none be ses with
      | mk r ss => cases r <;> rfl

/-- C2 (amended): for the cacheable reads `getMetadata`, `getLayoutMetadata`
and `listScripts`, a live Result Cache entry for the derived key is returned
immediately with the state unchanged — hence no remote call and no token
fetch — and after any successful call a repeat of the same call is a complete
no-op, so the same cacheable read twice within the TTL issues at most one
remote fetch.  `queryRecords` in `server.js`, however, never consults or
populates the Result Cache: its outcome is independent of the cache contents
and the cache passes through unchanged (it is cached only in the TypeScript
client's `findRecords`/`getRecords`). -/
theorem cacheable_reads_cache_contract :
    (∀ (dbs : List (String × DbConfig)) (database : String) (be : Backend) (s : SrvState)
       (cfg : DbConfig) (v : Body),
       assocLookup database dbs = some cfg →
       assocLookup ("metadata_" ++ database) s.dataCache = some v →
       fm_get_metadata dbs database be s = (.ok (assocLookup "response" v), s))
    ∧ (∀ (dbs : List (String × DbConfig)) (args : LayoutArgs) (be : Backend) (s : SrvState)
         (cfg : DbConfig) (v : Body),
       assocLookup args.database dbs = some cfg →
       assocLookup ("layout_" ++ args.database ++ "_" ++ args.layout) s.dataCache = some v →
       fm_get_layout_metadata dbs args be s = (.ok (assocLookup "response" v), s))
    ∧ (∀ (dbs : List (String × DbConfig)) (database : String) (be : Backend) (s : SrvState)
         (cfg : DbConfig) (v : Body),
       assocLookup database dbs = some cfg →
       assocLookup ("scripts_" ++ database) s.dataCache = some v →
       fm_get_scripts dbs database be s = (.ok (assocLookup "response" v), s))
    ∧ (∀ (dbs : List (String × DbConfig)) (database : String) (be : Backend) (s : SrvState)
         (x : Option JVal),
       (fm_get_metadata dbs database be s).1 = .ok x →
       fm_get_metadata dbs database be (fm_get_metadata dbs database be s).2 =
         (.ok x, (fm_get_metadata dbs database be s).2))
    ∧ (∀ (dbs : List (String × DbConfig)) (args : LayoutArgs) (be : Backend) (s : SrvState)
         (x : Option JVal),
       (fm_get_layout_metadata dbs args be s).1 = .ok x →
       fm_get_layout_metadata dbs args be (fm_get_layout_metadata dbs args be s).2 =
         (.ok x, (fm_get_layout_metadata dbs args be s).2))
    ∧ (∀ (dbs : List (String × DbConfig)) (database : String) (be : Backend) (s : SrvState)
         (x : Option JVal),
       (fm_get_scripts dbs database be s).1 = .ok x →
       fm_get_scripts dbs database be (fm_get_scripts dbs database be s).2 =
         (.ok x, (fm_get_scripts dbs database be s).2))
    ∧ (∀ (dbs : List (String × DbConfig)) (args : QueryArgs) (be : Backend)
         (ses : SessionState) (d₁ d₂ : List (String × Body)),
       fm_query_records dbs args be ⟨ses, d₂⟩ =
         ((fm_query_records dbs args be ⟨ses, d₁⟩).1,
          ⟨((fm_query_records dbs args be ⟨ses, d₁⟩).2).session, d₂⟩)) :=
  ⟨fm_get_metadata_hit, fm_get_layout_metadata_hit, fm_get_scripts_hit,
   fm_get_metadata_idem, fm_get_layout_metadata_idem, fm_get_scripts_idem,
   fm_query_records_dataCache_indep⟩

/-- The registry that discovery would build for the single target `MAIN`. -/
def dbsEx : List (String × DbConfig) := [("MAIN", cfgA)]

/-- A pure-read `fm_query_records` invocation (no `query`, so a plain
listing `GET`). -/
def argsQ : QueryArgs :=
  { database := "MAIN", layout := "Customers", query := none, sort := none,
    limit := none, offset := none }

/-- A backend on which every call succeeds. -/
def beOk : Backend :=
  { authResult := fun _ => .ok "TOK",
    dataResult := fun _ => .ok [("response", .obj [("data", .arr [])])] }

/-- C2 counterexample: issuing the same pure-read `queryRecords` twice in a
row (well within any TTL) performs **two** remote data calls, and the Result
Cache still holds no entry afterwards — `fm_query_records` in `server.js` is
not served from the Result Cache. -/
theorem fm_query_records_not_cached :
    (((fm_query_records dbsEx argsQ beOk
        ((fm_query_records dbsEx argsQ beOk initState).2)).2).session).dataLog.length = 2 ∧
    ((fm_query_records dbsEx argsQ beOk
        ((fm_query_records dbsEx argsQ beOk initState).2)).2).dataCache = [] :=
  ⟨rfl, rfl⟩

/-- A server state whose Result Cache holds a live metadata entry for
`MAIN`. -/
def sWithMeta : SrvState :=
  { session := initState.session,
    dataCache := [("metadata_MAIN", [("response", .str "cached")])] }

/-- Witness for `cacheable_reads_cache_contract`: a cache hit on the metadata
key returns the cached `response` with the state untouched. -/
theorem cacheable_reads_cache_contract_witness :
    fm_get_metadata dbsEx "MAIN" beOk sWithMeta = (.ok (some (.str "cached")), sWithMeta) := by
  have h := cacheable_reads_cache_contract.1 dbsEx "MAIN" beOk sWithMeta cfgA
    [("response", .str "cached")] rfl rfl
  simpa using h

theorem authenticateFileMaker_authLog_ge (cfg : DbConfig) (be : Backend) (s : SessionState) :
    s.authLog.length ≤ ((authenticateFileMaker cfg be s).2).authLog.length := by
  cases authenticateFileMaker_authLog cfg be s with
  | inl h => rw [h]
  | inr h =>
    rw [h]
    simp

/-- Every `makeFileMakerRequest` call contacts the backend at least once
(an authentication call or a data call is always issued). -/
theorem makeFileMakerRequest_contacts (cfg : DbConfig) (method endpoint : String)
    (data : Option JVal) (be : Backend) (s : SessionState) :
    s.authLog.length + s.dataLog.length <
      ((makeFileMakerRequest cfg method endpoint data be s).2).authLog.length +
        ((makeFileMakerRequest cfg method endpoint data be s).2).dataLog.length := by
  unfold makeFileMakerRequest
  cases hA : authenticateFileMaker cfg be s with
  | mk r s₁ =>
    have hd1 : s₁.dataLog = s.dataLog := by
      have h := authenticateFileMaker_dataLog cfg be s
      rw [hA] at h
      exact h
    cases r with
    | error e =>
      have ha := authenticateFileMaker_error_authLog cfg be s e s₁ hA
      dsimp only
      rw [ha, hd1]
      simp
    | ok t =>
      have ha1 : s.authLog.length ≤ s₁.authLog.length := by
        have h := authenticateFileMaker_authLog_ge cfg be s
        rw [hA] at h
        simpa using h
      dsimp only
      cases hD : be.dataResult s₁.dataLog.length with
      | ok body =>
        dsimp only
        simp only [List.length_append, List.length_cons, List.length_nil, hd1]
        omega
      | fail f =>
        dsimp only
        by_cases h401 : failureStatus f = some 401
        · rw [if_pos h401]
          cases hA2 : authenticateFileMaker cfg be
              ⟨assocErase (sessionKey cfg) s₁.sessionCache,
               s₁.authLog, s₁.dataLog ++ [dataRequestOf cfg method endpoint data t]⟩ with
          | mk r₂ s₄ =>
            have hd4 : s₄.dataLog = s₁.dataLog ++ [dataRequestOf cfg method endpoint data t] := by
              have h := authenticateFileMaker_dataLog cfg be
                ⟨assocErase (sessionKey cfg) s₁.sessionCache,
                 s₁.authLog, s₁.dataLog ++ [dataRequestOf cfg method endpoint data t]⟩
              rw [hA2] at h
              exact h
            have ha4 : s₁.authLog.length ≤ s₄.authLog.length := by
              have h := authenticateFileMaker_authLog_ge cfg be
                ⟨assocErase (sessionKey cfg) s₁.sessionCache,
                 s₁.authLog, s₁.dataLog ++ [dataRequestOf cfg method endpoint data t]⟩
              rw [hA2] at h
              simpa using h
            cases r₂ with
            | error e =>
              dsimp only
              simp only [hd4, hd1, List.length_append, List.length_cons, List.length_nil] at *
              omega
            | ok tok₂ =>
              dsimp only
              cases hD2 : be.dataResult s₄.dataLog.length with
              | ok body =>
                dsimp only
                simp only [hd4, hd1, List.length_append, List.length_cons, List.length_nil] at *
                omega
              | fail f₂ =>
                dsimp only
                simp only [hd4, hd1, List.length_append, List.length_cons, List.length_nil] at *
                omega
        · rw [if_neg h401]
          dsimp only
          simp only [hd1, List.length_append, List.length_cons, List.length_nil]
          omega

theorem fm_create_record_dataCache_indep (dbs : List (String × DbConfig)) (args : CreateArgs)
    (be : Backend) (ses : SessionState) (d₁ d₂ : List (String × Body)) :
    fm_create_record dbs args be ⟨ses, d₂⟩ =
      ((fm_create_record dbs args be ⟨ses, d₁⟩).1,
       ⟨((fm_create_record dbs args be ⟨ses, d₁⟩).2).session, d₂⟩) := by
  unfold fm_create_record
  cases hdb : assocLookup args.database dbs with
  | none => rfl
  | some cfg =>
    dsimp only
    cases hr : makeFileMakerRequest cfg "POST"
        ("/layouts/" ++ encodeURIComponent args.layout ++ "/records")
        (some (.obj [("fieldData", args.fieldData)])) be ses with
    | mk r ss => cases r <;> rfl

theorem fm_update_record_dataCache_indep (dbs : List (String × DbConfig)) (args : UpdateArgs)
    (be : Backend) (ses : SessionState) (d₁ d₂ : List (String × Body)) :
    fm_update_record dbs args be ⟨ses, d₂⟩ =
      ((fm_update_record dbs args be ⟨ses, d₁⟩).1,
       ⟨((fm_update_record dbs args be ⟨ses, d₁⟩).2).session, d₂⟩) := by
  unfold fm_update_record
  cases hdb : assocLookup args.database dbs with
  | none => rfl
  | some cfg =>
    dsimp only
    cases hr : makeFileMakerRequest cfg "PATCH"
        ("/layouts/" ++ encodeURIComponent args.layout ++ "/records/" ++ args.recordId)
        (some (.obj [("fieldData", args.fieldData)])) be ses with
    | mk r ss => cases r <;> rfl

theorem fm_delete_record_dataCache_indep (dbs : List (String × DbConfig)) (args : DeleteArgs)
    (be : Backend) (ses : SessionState) (d₁ d₂ : List (String × Body)) :
    fm_delete_record dbs args be ⟨ses, d₂⟩ =
      ((fm_delete_record dbs args be ⟨ses, d₁⟩).1,
       ⟨((fm_delete_record dbs args be ⟨ses, d₁⟩).2).session, d₂⟩) := by
  unfold fm_delete_record
  cases hdb : assocLookup args.database dbs with
  | none => rfl
  | some cfg =>
    dsimp only
    cases hr : makeFileMakerRequest cfg "DELETE"
        ("/layouts/" ++ encodeURIComponent args.layout ++ "/records/" ++ args.recordId)
        none be ses with
    | mk r ss => cases r <;> rfl

theorem fm_run_script_dataCache_indep (dbs : List (String × DbConfig)) (args : ScriptArgs)
    (be : Backend) (ses : SessionState) (d₁ d₂ : List (String × Body)) :
    fm_run_script dbs args be ⟨ses, d₂⟩ =
      ((fm_run_script dbs args be ⟨ses, d₁⟩).1,
       ⟨((fm_run_script dbs args be ⟨ses, d₁⟩).2).session, d₂⟩) := by
  unfold fm_run_script
  cases hdb : assocLookup args.database dbs with
  | none => rfl
  | some cfg =>
    dsimp only
    cases hr : makeFileMakerRequest cfg "GET" (scriptEndpoint args) none be ses with
    | mk r ss => cases r <;> rfl

theorem fm_create_record_contacts (dbs : List (String × DbConfig)) (args : CreateArgs)
    (be : Backend) (s : SrvState) (cfg : DbConfig)
    (hdb : assocLookup args.database dbs = some cfg) :
    s.session.authLog.length + s.session.dataLog.length <
      (((fm_create_record dbs args be s).2).session).authLog.length +
        (((fm_create_record dbs args be s).2).session).dataLog.length := by
  unfold fm_create_record
  rw [hdb]
  dsimp only
  cases hr : makeFileMakerRequest cfg "POST"
      ("/layouts/" ++ encodeURIComponent args.layout ++ "/records")
      (some (.obj [("fieldData", args.fieldData)])) be s.session with
  | mk r ss =>
    have h := makeFileMakerRequest_contacts cfg "POST"
      ("/layouts/" ++ encodeURIComponent args.layout ++ "/records")
      (some (.obj [("fieldData", args.fieldData)])) be s.session
    rw [hr] at h
    cases r <;> simpa using h

theorem fm_update_record_contacts (dbs : List (String × DbConfig)) (args : UpdateArgs)
    (be : Backend) (s : SrvState) (cfg : DbConfig)
    (hdb : assocLookup args.database dbs = some cfg) :
    s.session.authLog.length + s.session.dataLog.length <
      (((fm_update_record dbs args be s).2).session).authLog.length +
        (((fm_update_record dbs args be s).2).session).dataLog.length := by
  unfold fm_update_record
  rw [hdb]
  dsimp only
  cases hr : makeFileMakerRequest cfg "PATCH"
      ("/layouts/" ++ encodeURIComponent args.layout ++ "/records/" ++ args.recordId)
      (some (.obj [("fieldData", args.fieldData)])) be s.session with
  | mk r ss =>
    have h := makeFileMakerRequest_contacts cfg "PATCH"
      ("/layouts/" ++ encodeURIComponent args.layout ++ "/records/" ++ args.recordId)
      (some (.obj [("fieldData", args.fieldData)])) be s.session
    rw [hr] at h
    cases r <;> simpa using h

theorem fm_delete_record_contacts (dbs : List (String × DbConfig)) (args : DeleteArgs)
    (be : Backend) (s : SrvState) (cfg : DbConfig)
    (hdb : assocLookup args.database dbs = some cfg) :
    s.session.authLog.length + s.session.dataLog.length <
      (((fm_delete_record dbs args be s).2).session).authLog.length +
        (((fm_delete_record dbs args be s).2).session).dataLog.length := by
  unfold fm_delete_record
  rw [hdb]
  dsimp only
  cases hr : makeFileMakerRequest cfg "DELETE"
      ("/layouts/" ++ encodeURIComponent args.layout ++ "/records/" ++ args.recordId)
      none be s.session with
  | mk r ss =>
    have h := makeFileMakerRequest_contacts cfg "DELETE"
      ("/layouts/" ++ encodeURIComponent args.layout ++ "/records/" ++ args.recordId)
      none be s.session
    rw [hr] at h
    cases r <;> simpa using h

theorem fm_run_script_contacts (dbs : List (String × DbConfig)) (args : ScriptArgs)
    (be : Backend) (s : SrvState) (cfg : DbConfig)
    (hdb : assocLookup args.database dbs = some cfg) :
    s.session.authLog.length + s.session.dataLog.length <
      (((fm_run_script dbs args be s).2).session).authLog.length +
        (((fm_run_script dbs args be s).2).session).dataLog.length := by
  unfold fm_run_script
  rw [hdb]
  dsimp only
  cases hr : makeFileMakerRequest cfg "GET" (scriptEndpoint args) none be s.session with
  | mk r ss =>
    have h := makeFileMakerRequest_contacts cfg "GET" (scriptEndpoint args) none be s.session
    rw [hr] at h
    cases r <;> simpa using h

/-- C3: the mutating handlers (`createRecord`, `updateRecord`, `deleteRecord`,
`runScript`) never read from and never write to the Result Cache — their
outcome and session evolution are independent of the Result Cache contents
and the cache passes through unchanged, whatever the outcome — and every such
call on a registered target contacts the backend (the remote request logs
strictly grow: a live round-trip, never a cached answer). -/
theorem mutating_handlers_bypass_result_cache :
    (∀ (dbs : List (String × DbConfig)) (args : CreateArgs) (be : Backend)
       (ses : SessionState) (d₁ d₂ : List (String × Body)),
       fm_create_record dbs args be ⟨ses, d₂⟩ =
         ((fm_create_record dbs args be ⟨ses, d₁⟩).1,
          ⟨((fm_create_record dbs args be ⟨ses, d₁⟩).2).session, d₂⟩))
    ∧ (∀ (dbs : List (String × DbConfig)) (args : UpdateArgs) (be : Backend)
         (ses : SessionState) (d₁ d₂ : List (String × Body)),
       fm_update_record dbs args be ⟨ses, d₂⟩ =
         ((fm_update_record dbs args be ⟨ses, d₁⟩).1,
          ⟨((fm_update_record dbs args be ⟨ses, d₁⟩).2).session, d₂⟩))
    ∧ (∀ (dbs : List (String × DbConfig)) (args : DeleteArgs) (be : Backend)
         (ses : SessionState) (d₁ d₂ : List (String × Body)),
       fm_delete_record dbs args be ⟨ses, d₂⟩ =
         ((fm_delete_record dbs args be ⟨ses, d₁⟩).1,
          ⟨((fm_delete_record dbs args be ⟨ses, d₁⟩).2).session, d₂⟩))
    ∧ (∀ (dbs : List (String × DbConfig)) (args : ScriptArgs) (be : Backend)
         (ses : SessionState) (d₁ d₂ : List (String × Body)),
       fm_run_script dbs args be ⟨ses, d₂⟩ =
         ((fm_run_script dbs args be ⟨ses, d₁⟩).1,
          ⟨((fm_run_script dbs args be ⟨ses, d₁⟩).2).session, d₂⟩))
    ∧ (∀ (dbs : List (String × DbConfig)) (args : CreateArgs) (be : Backend)
         (s : SrvState) (cfg : DbConfig), assocLookup args.database dbs = some cfg →
       s.session.authLog.length + s.session.dataLog.length <
         (((fm_create_record dbs args be s).2).session).authLog.length +
           (((fm_create_record dbs args be s).2).session).dataLog.length)
    ∧ (∀ (dbs : List (String × DbConfig)) (args : UpdateArgs) (be : Backend)
         (s : SrvState) (cfg : DbConfig), assocLookup args.database dbs = some cfg →
       s.session.authLog.length + s.session.dataLog.length <
         (((fm_update_record dbs args be s).2).session).authLog.length +
           (((fm_update_record dbs args be s).2).session).dataLog.length)
    ∧ (∀ (dbs : List (String × DbConfig)) (args : DeleteArgs) (be : Backend)
         (s : SrvState) (cfg : DbConfig), assocLookup args.database dbs = some cfg →
       s.session.authLog.length + s.session.dataLog.length <
         (((fm_delete_record dbs args be s).2).session).authLog.length +
           (((fm_delete_record dbs args be s).2).session).dataLog.length)
    ∧ (∀ (dbs : List (String × DbConfig)) (args : ScriptArgs) (be : Backend)
         (s : SrvState) (cfg : DbConfig), assocLookup args.database dbs = some cfg →
       s.session.authLog.length + s.session.dataLog.length <
         (((fm_run_script dbs args be s).2).session).authLog.length +
           (((fm_run_script dbs args be s).2).session).dataLog.length) :=
  ⟨fm_create_record_dataCache_indep, fm_update_record_dataCache_indep,
   fm_delete_record_dataCache_indep, fm_run_script_dataCache_indep,
   fm_create_record_contacts, fm_update_record_contacts,
   fm_delete_record_contacts, fm_run_script_contacts⟩

/-- A concrete delete invocation. -/
def argsD : DeleteArgs := { database := "MAIN", layout := "Customers", recordId := "7" }

/-- Witness for `mutating_handlers_bypass_result_cache`: a concrete delete on
the fresh server really goes to the backend (the request logs grow). -/
theorem mutating_handlers_bypass_result_cache_witness :
    initState.session.authLog.length + initState.session.dataLog.length <
      (((fm_delete_record dbsEx argsD beOk initState).2).session).authLog.length +
        (((fm_delete_record dbsEx argsD beOk initState).2).session).dataLog.length :=
  mutating_handlers_bypass_result_cache.2.2.2.2.2.2.1 dbsEx argsD beOk initState cfgA rfl

/-- C8: `clearCache` with scope `"data"` empties exactly the Result Cache,
`"session"` empties exactly the Credential Cache, `"all"` empties both; each
returns its confirmation text immediately, the operation is total (it never
errors), and clearing `"all"` twice in a row leaves the state of the first
clear untouched (idempotent). -/
theorem fm_clear_cache_contract :
    (∀ s : SrvState, fm_clear_cache "data" s = ("✅ data cache cleared", ⟨s.session, []⟩))
    ∧ (∀ s : SrvState, fm_clear_cache "session" s =
        ("✅ session cache cleared",
         ⟨⟨[], s.session.authLog, s.session.dataLog⟩, s.dataCache⟩))
    ∧ (∀ s : SrvState, fm_clear_cache "all" s =
        ("✅ all cache cleared", ⟨⟨[], s.session.authLog, s.session.dataLog⟩, []⟩))
    ∧ (∀ s : SrvState,
        (fm_clear_cache "all" ((fm_clear_cache "all" s).2)).2 = (fm_clear_cache "all" s).2) := by
  refine ⟨fun s => rfl, fun s => rfl, fun s => rfl, fun s => rfl⟩

/-!
## Discovery characterization
-/

theorem strHasPrefix_recover (k : String) (h : strHasPrefix k "FM_SERVER_" = true) :
    "FM_SERVER_" ++ stripServerKey k = k := by
  unfold strHasPrefix at h
  rw [List.isPrefixOf_iff_prefix] at h
  obtain ⟨t, ht⟩ := h
  apply String.ext
  rw [String.data_append]
  show "FM_SERVER_".data ++ k.data.drop ("FM_SERVER_".data.length) = k.data
  rw [← ht, List.drop_left]

theorem stripServerKey_append (id : String) :
    stripServerKey ("FM_SERVER_" ++ id) = id := by
  apply String.ext
  show (("FM_SERVER_" ++ id).data).drop ("FM_SERVER_".data.length) = id.data
  rw [String.data_append, List.drop_left]

theorem strHasPrefix_append (id : String) :
    strHasPrefix ("FM_SERVER_" ++ id) "FM_SERVER_" = true := by
  unfold strHasPrefix
  rw [List.isPrefixOf_iff_prefix, String.data_append]
  exact List.prefix_append _ _

/-- The inclusion condition of the discovery loop, as a function of the
`FM_SERVER_` key (`server && database && ((username && password) || apiKey)`
under JavaScript truthiness). -/
def discoveryCond (env : List (String × String)) (serverKey : String) : Bool :=
  let identifier := stripServerKey serverKey
  optTruthy (envGet env serverKey) &&
    optTruthy (envGet env ("FM_DATABASE_" ++ identifier)) &&
    (optTruthy (envGet env ("FM_ACCOUNT_" ++ identifier)) &&
       optTruthy (envGet env ("FM_PASSWORD_" ++ identifier)) ||
     optTruthy (envGet env ("FM_API_KEY_" ++ identifier)))

/-- The configuration object the discovery loop stores for a key. -/
def profileFor (env : List (String × String)) (serverKey : String) : DbConfig :=
  { server := (envGet env serverKey).getD "",
    database := (envGet env ("FM_DATABASE_" ++ stripServerKey serverKey)).getD "",
    username := envGet env ("FM_ACCOUNT_" ++ stripServerKey serverKey),
    password := envGet env ("FM_PASSWORD_" ++ stripServerKey serverKey),
    apiKey := envGet env ("FM_API_KEY_" ++ stripServerKey serverKey),
    protocol := jsOrStr (envGet env "FM_PROTOCOL") "https",
    apiVersion := jsOrStr (envGet env "FM_API_VERSION") "v1" }

theorem candidateFor_eq (env : List (String × String)) (k : String) :
    candidateFor env k =
      if discoveryCond env k then some (stripServerKey k, profileFor env k) else none := by
  unfold candidateFor discoveryCond profileFor
  rfl

/-- The claim-side inclusion condition: non-empty host, non-empty database
name, and either username-and-password or an api key, all for identifier
`id`. -/
def validCandidate (env : List (String × String)) (id : String) : Bool :=
  optTruthy (envGet env ("FM_SERVER_" ++ id)) &&
    optTruthy (envGet env ("FM_DATABASE_" ++ id)) &&
    (optTruthy (envGet env ("FM_ACCOUNT_" ++ id)) &&
       optTruthy (envGet env ("FM_PASSWORD_" ++ id)) ||
     optTruthy (envGet env ("FM_API_KEY_" ++ id)))

theorem discoveryCond_serverKey (env : List (String × String)) (id : String) :
    discoveryCond env ("FM_SERVER_" ++ id) = validCandidate env id := by
  unfold discoveryCond validCandidate
  rw [stripServerKey_append]

theorem profileFor_serverKey (env : List (String × String)) (id : String) :
    profileFor env ("FM_SERVER_" ++ id) =
      { server := (envGet env ("FM_SERVER_" ++ id)).getD "",
        database := (envGet env ("FM_DATABASE_" ++ id)).getD "",
        username := envGet env ("FM_ACCOUNT_" ++ id),
        password := envGet env ("FM_PASSWORD_" ++ id),
        apiKey := envGet env ("FM_API_KEY_" ++ id),
        protocol := jsOrStr (envGet env "FM_PROTOCOL") "https",
        apiVersion := jsOrStr (envGet env "FM_API_VERSION") "v1" } := by
  unfold profileFor
  rw [stripServerKey_append]

/-- Membership in the discovered registry, characterized by the environment
contents. -/
theorem mem_discover_iff (env : List (String × String)) (id : String) :
    (∃ p, (id, p) ∈ discover env) ↔
      (("FM_SERVER_" ++ id) ∈ env.map Prod.fst ∧ validCandidate env id = true) := by
  constructor
  · rintro ⟨p, hp⟩
    unfold discover at hp
    rw [List.mem_filterMap] at hp
    obtain ⟨k, hk, hck⟩ := hp
    rw [List.mem_filter] at hk
    obtain ⟨hkmem, hkpre⟩ := hk
    rw [candidateFor_eq] at hck
    by_cases hc : discoveryCond env k = true
    · rw [if_pos hc] at hck
      have hid : stripServerKey k = id := by
        have := congrArg (Option.map Prod.fst) hck
        simpa using this
      have hrec : "FM_SERVER_" ++ id = k := by
        rw [← hid]
        exact strHasPrefix_recover k hkpre
      constructor
      · rw [hrec]
        exact hkmem
      · rw [← discoveryCond_serverKey env id, hrec]
        exact hc
    · rw [if_neg hc] at hck
      exact absurd hck (by simp)
  · rintro ⟨hmem, hval⟩
    refine ⟨profileFor env ("FM_SERVER_" ++ id), ?_⟩
    unfold discover
    rw [List.mem_filterMap]
    refine ⟨"FM_SERVER_" ++ id, ?_, ?_⟩
    · rw [List.mem_filter]
      exact ⟨hmem, strHasPrefix_append id⟩
    · rw [candidateFor_eq, discoveryCond_serverKey env id, hval, if_pos rfl,
        stripServerKey_append]

/-- Configuration entries for three identifiers; `GAMMA` has an account name
but no password and no api key. -/
def envThree : List (String × String) :=
  [("FM_SERVER_ALPHA", "a.example.com"), ("FM_DATABASE_ALPHA", "AlphaDB"),
   ("FM_ACCOUNT_ALPHA", "user_a"), ("FM_PASSWORD_ALPHA", "pw_a"),
   ("FM_SERVER_BETA", "b.example.com"), ("FM_DATABASE_BETA", "BetaDB"),
   ("FM_API_KEY_BETA", "key_b"),
   ("FM_SERVER_GAMMA", "c.example.com"), ("FM_DATABASE_GAMMA", "GammaDB"),
   ("FM_ACCOUNT_GAMMA", "user_c")]

/-- C5: a candidate identifier is registered iff its host entry exists and is
non-empty, its database name is non-empty, and it resolves username+password
or an api key; incomplete candidates are dropped silently (discovery is a
total function), startup fails iff no candidate survives, and on the concrete
three-identifier environment where `GAMMA` lacks both its password and an api
key, exactly `ALPHA` and `BETA` are registered. -/
theorem discover_registry_contract :
    (∀ (env : List (String × String)) (id : String),
       (∃ p, (id, p) ∈ discover env) ↔
         (("FM_SERVER_" ++ id) ∈ env.map Prod.fst ∧ validCandidate env id = true))
    ∧ (∀ env : List (String × String),
       (∃ msg, startupDatabases env = .error msg) ↔
         ∀ id, ¬(("FM_SERVER_" ++ id) ∈ env.map Prod.fst ∧ validCandidate env id = true))
    ∧ ((discover envThree).map Prod.fst = ["ALPHA", "BETA"]) := by
  refine ⟨mem_discover_iff, ?_, ?_⟩
  · intro env
    have hdef : startupDatabases env =
        if (discover env).isEmpty = true then
          Except.error "No valid FileMaker database configurations found in environment variables"
        else Except.ok (discover env) := rfl
    constructor
    · rintro ⟨msg, hmsg⟩ id hid
      rw [hdef] at hmsg
      by_cases he : (discover env).isEmpty = true
      · have hnil : discover env = [] := List.isEmpty_iff.mp he
        obtain ⟨p, hp⟩ := (mem_discover_iff env id).mpr hid
        rw [hnil] at hp
        exact List.not_mem_nil _ hp
      · rw [if_neg he] at hmsg
        exact absurd hmsg (by simp)
    · intro h
      have hnil : discover env = [] := by
        rw [List.eq_nil_iff_forall_not_mem]
        rintro ⟨id, p⟩ hx
        exact h id ((mem_discover_iff env id).mp ⟨p, hx⟩)
      refine ⟨"No valid FileMaker database configurations found in environment variables", ?_⟩
      rw [hdef, hnil]
      rfl
  · rfl

theorem optTruthy_getD (o : Option String) (h : optTruthy o = true) : o.getD "" ≠ "" := by
  cases o with
  | none => simp [optTruthy] at h
  | some v => simpa [optTruthy] using h

/-- The two-variant configuration for `MAIN`: username+password AND api key. -/
def envBoth : List (String × String) :=
  [("FM_SERVER_MAIN", "srv.example.com"), ("FM_DATABASE_MAIN", "CRM"),
   ("FM_ACCOUNT_MAIN", "alice"), ("FM_PASSWORD_MAIN", "pw"),
   ("FM_API_KEY_MAIN", "key-1")]

/-- The profile discovery builds for `envBoth`: both credential variants
stored. -/
def cfgBoth : DbConfig :=
  { server := "srv.example.com", database := "CRM", username := some "alice",
    password := some "pw", apiKey := some "key-1", protocol := "https",
    apiVersion := "v1" }

/-- C7 counterexample: a candidate that resolves **both** credential variants
(username+password and an api key) is admitted to the registry — with both
variants stored in the profile — contradicting the claim that such a
candidate is excluded ("but not both"). -/
theorem discover_admits_both_credential_variants :
    discover envBoth = [("MAIN", cfgBoth)] := rfl

/-- C7 (amended): a candidate is admitted to the registry iff its host and
database name are non-empty and **at least one** credential variant is
resolvable (username+password, or an api key); a candidate resolving both is
admitted with both stored, and only a candidate resolving neither variant is
excluded — and then it is excluded entirely, never stored as partial state. -/
theorem discover_credential_variant_contract :
    (∀ (env : List (String × String)) (id : String) (p : DbConfig),
       (id, p) ∈ discover env →
       p.server ≠ "" ∧ p.database ≠ "" ∧
         (optTruthy p.username && optTruthy p.password || optTruthy p.apiKey) = true)
    ∧ (∀ (env : List (String × String)) (id : String),
       validCandidate env id = false → id ∉ (discover env).map Prod.fst) := by
  constructor
  · intro env id p hp
    unfold discover at hp
    rw [List.mem_filterMap] at hp
    obtain ⟨k, hk, hck⟩ := hp
    rw [candidateFor_eq] at hck
    by_cases hc : discoveryCond env k = true
    · rw [if_pos hc] at hck
      have hpp : profileFor env k = p := by
        have := congrArg (Option.map Prod.snd) hck
        simpa using this
      subst hpp
      unfold discoveryCond at hc
      simp only [Bool.and_eq_true, Bool.or_eq_true] at hc
      obtain ⟨⟨hs, hd⟩, hcred⟩ := hc
      refine ⟨optTruthy_getD _ hs, optTruthy_getD _ hd, ?_⟩
      unfold profileFor
      dsimp only
      simp only [Bool.and_eq_true, Bool.or_eq_true]
      exact hcred
    · rw [if_neg hc] at hck
      exact absurd hck (by simp)
  · intro env id hval hmem
    rw [List.mem_map] at hmem
    obtain ⟨⟨id', p⟩, hp, hid⟩ := hmem
    dsimp only at hid
    subst hid
    have := ((mem_discover_iff env id').mp ⟨p, hp⟩).2
    rw [hval] at this
    exact absurd this (by simp)

/-- Witness for `discover_credential_variant_contract`: the admitted `MAIN`
profile of `envBoth` indeed has a non-empty host, a non-empty database name
and a resolvable credential variant. -/
theorem discover_credential_variant_contract_witness :
    cfgBoth.server ≠ "" ∧ cfgBoth.database ≠ "" ∧
      (optTruthy cfgBoth.username && optTruthy cfgBoth.password ||
        optTruthy cfgBoth.apiKey) = true :=
  discover_credential_variant_contract.1 envBoth "MAIN" cfgBoth (List.Mem.head _)

/-- An api-key-only configuration for identifier `DEV`. -/
def envKeyOnly : List (String × String) :=
  [("FM_SERVER_DEV", "dev.example.com"), ("FM_DATABASE_DEV", "Dev"),
   ("FM_API_KEY_DEV", "dev-key-1")]

/-- The profile discovery stores for `envKeyOnly`: the api key is kept, the
username and password are absent (`undefined`). -/
def cfgKeyOnly : DbConfig :=
  { server := "dev.example.com", database := "Dev", username := none,
    password := none, apiKey := some "dev-key-1", protocol := "https",
    apiVersion := "v1" }

/-- C9: authentication always uses HTTP basic auth with the profile's
`username`/`password` fields — the whole session layer is invariant under
changing the profile's `apiKey`, every issued session request carries exactly
the profile's `username` and `password`, a configured api key is stored in
the profile at discovery, and for an api-key-only target the session request
is issued with absent (`undefined`) username and password. -/
theorem authentication_ignores_apiKey :
    (∀ (cfg : DbConfig) (k : Option String) (be : Backend) (s : SessionState),
       authenticateFileMaker { cfg with apiKey := k } be s = authenticateFileMaker cfg be s)
    ∧ (∀ (cfg : DbConfig) (k : Option String) (method endpoint : String)
         (data : Option JVal) (be : Backend) (s : SessionState),
       makeFileMakerRequest { cfg with apiKey := k } method endpoint data be s =
         makeFileMakerRequest cfg method endpoint data be s)
    ∧ (∀ (cfg : DbConfig) (be : Backend) (s : SessionState),
       ((authenticateFileMaker cfg be s).2).authLog = s.authLog ∨
       ((authenticateFileMaker cfg be s).2).authLog = s.authLog ++ [authRequestOf cfg])
    ∧ (∀ cfg : DbConfig, (authRequestOf cfg).username = cfg.username ∧
        (authRequestOf cfg).password = cfg.password)
    ∧ (discover envKeyOnly = [("DEV", cfgKeyOnly)])
    ∧ (((authenticateFileMaker cfgKeyOnly beOk initState.session).2).authLog =
        [{ url := baseURL cfgKeyOnly ++ "/sessions", username := none, password := none }]) := by
  refine ⟨?_, ?_, authenticateFileMaker_authLog, fun cfg => ⟨rfl, rfl⟩, rfl, rfl⟩
  · intro cfg k be s
    cases cfg
    rfl
  · intro cfg k method endpoint data be s
    cases cfg
    rfl

/-- Whether the reply body lacks a truthy `response` field. -/
def respFalsy (b : Body) : Bool :=
  match assocLookup "response" b with
  | some v => !jsTruthy v
  | none => true

theorem jsOr_of_falsy (b : Body) (h : respFalsy b = true) :
    jsOr (assocLookup "response" b) successObj = successObj := by
  unfold respFalsy at h
  unfold jsOr
  cases hx : assocLookup "response" b with
  | none => rfl
  | some v =>
    rw [hx] at h
    simp only [Bool.not_eq_true'] at h
    simp [h]

/-- C10: when the backend call succeeds but the reply carries no truthy
`response` field, the delete and run-script handlers return the fixed payload
`{ "success": true }` (`result.response || { success: true }`), while every
other data handler hands back the reply's `response` field exactly as it is,
with no such fallback. -/
theorem response_fallback_contract :
    (∀ (dbs : List (String × DbConfig)) (args : DeleteArgs) (be : Backend) (s : SrvState)
       (cfg : DbConfig) (b : Body) (ss : SessionState),
       assocLookup args.database dbs = some cfg →
       makeFileMakerRequest cfg "DELETE"
         ("/layouts/" ++ encodeURIComponent args.layout ++ "/records/" ++ args.recordId)
         none be s.session = (.ok b, ss) →
       respFalsy b = true →
       fm_delete_record dbs args be s = (.ok (some successObj), ⟨ss, s.dataCache⟩))
    ∧ (∀ (dbs : List (String × DbConfig)) (args : ScriptArgs) (be : Backend) (s : SrvState)
         (cfg : DbConfig) (b : Body) (ss : SessionState),
       assocLookup args.database dbs = some cfg →
       makeFileMakerRequest cfg "GET" (scriptEndpoint args) none be s.session = (.ok b, ss) →
       respFalsy b = true →
       fm_run_script dbs args be s = (.ok (some successObj), ⟨ss, s.dataCache⟩))
    ∧ (∀ (dbs : List (String × DbConfig)) (args : CreateArgs) (be : Backend) (s : SrvState)
         (cfg : DbConfig) (b : Body) (ss : SessionState),
       assocLookup args.database dbs = some cfg →
       makeFileMakerRequest cfg "POST"
         ("/layouts/" ++ encodeURIComponent args.layout ++ "/records")
         (some (.obj [("fieldData", args.fieldData)])) be s.session = (.ok b, ss) →
       fm_create_record dbs args be s = (.ok (assocLookup "response" b), ⟨ss, s.dataCache⟩))
    ∧ (∀ (dbs : List (String × DbConfig)) (args : UpdateArgs) (be : Backend) (s : SrvState)
         (cfg : DbConfig) (b : Body) (ss : SessionState),
       assocLookup args.database dbs = some cfg →
       makeFileMakerRequest cfg "PATCH"
         ("/layouts/" ++ encodeURIComponent args.layout ++ "/records/" ++ args.recordId)
         (some (.obj [("fieldData", args.fieldData)])) be s.session = (.ok b, ss) →
       fm_update_record dbs args be s = (.ok (assocLookup "response" b), ⟨ss, s.dataCache⟩))
    ∧ (∀ (dbs : List (String × DbConfig)) (args : QueryArgs) (be : Backend) (s : SrvState)
         (cfg : DbConfig) (b : Body) (ss : SessionState),
       assocLookup args.database dbs = some cfg →
       args.query = none →
       makeFileMakerRequest cfg "GET" (queryListEndpoint args) none be s.session = (.ok b, ss) →
       fm_query_records dbs args be s = (.ok (assocLookup "response" b), ⟨ss, s.dataCache⟩))
    ∧ (∀ (dbs : List (String × DbConfig)) (database : String) (be : Backend) (s : SrvState)
         (cfg : DbConfig) (b : Body) (ss : SessionState),
       assocLookup database dbs = some cfg →
       assocLookup ("metadata_" ++ database) s.dataCache = none →
       makeFileMakerRequest cfg "GET" "/layouts" none be s.session = (.ok b, ss) →
       fm_get_metadata dbs database be s =
         (.ok (assocLookup "response" b),
          ⟨ss, assocSet ("metadata_" ++ database) b s.dataCache⟩))
    ∧ (∀ (dbs : List (String × DbConfig)) (database : String) (be : Backend) (s : SrvState)
         (cfg : DbConfig) (b : Body) (ss : SessionState),
       assocLookup database dbs = some cfg →
       assocLookup ("scripts_" ++ database) s.dataCache = none →
       makeFileMakerRequest cfg "GET" "/scripts" none be s.session = (.ok b, ss) →
       fm_get_scripts dbs database be s =
         (.ok (assocLookup "response" b),
          ⟨ss, assocSet ("scripts_" ++ database) b s.dataCache⟩)) := by
  refine ⟨?_, ?_, ?_, ?_, ?_, ?_, ?_⟩
  · intro dbs args be s cfg b ss hdb hr hfal
    unfold fm_delete_record
    rw [hdb]
    dsimp only
    rw [hr]
    dsimp only
    rw [jsOr_of_falsy b hfal]
  · intro dbs args be s cfg b ss hdb hr hfal
    unfold fm_run_script
    rw [hdb]
    dsimp only
    rw [hr]
    dsimp only
    rw [jsOr_of_falsy b hfal]
  · intro dbs args be s cfg b ss hdb hr
    unfold fm_create_record
    rw [hdb]
    dsimp only
    rw [hr]
  · intro dbs args be s cfg b ss hdb hr
    unfold fm_update_record
    rw [hdb]
    dsimp only
    rw [hr]
  · intro dbs args be s cfg b ss hdb hq hr
    unfold fm_query_records
    rw [hdb]
    dsimp only
    rw [hq]
    dsimp only
    rw [if_neg (by simp)]
    rw [hr]
  · intro dbs database be s cfg b ss hdb hv hr
    exact fm_get_metadata_miss_ok dbs database be s cfg b ss hdb hv hr
  · intro dbs database be s cfg b ss hdb hv hr
    exact fm_get_scripts_miss_ok dbs database be s cfg b ss hdb hv hr

/-- A backend whose data replies carry no `response` field at all. -/
def beNoResp : Backend :=
  { authResult := fun _ => .ok "TOK",
    dataResult := fun _ => .ok [("ok", .bool true)] }

/-- Witness for `response_fallback_contract`: a delete whose reply has no
`response` field returns exactly `{ "success": true }`. -/
theorem response_fallback_contract_witness :
    fm_delete_record dbsEx argsD beNoResp initState =
      (.ok (some successObj),
       ⟨⟨assocSet (sessionKey cfgA) "TOK" [], [authRequestOf cfgA],
         [dataRequestOf cfgA "DELETE"
            ("/layouts/" ++ encodeURIComponent "Customers" ++ "/records/" ++ "7")
            none "TOK"]⟩, []⟩) :=
  response_fallback_contract.1 dbsEx argsD beNoResp initState cfgA [("ok", .bool true)]
    ⟨assocSet (sessionKey cfgA) "TOK" [], [authRequestOf cfgA],
     [dataRequestOf cfgA "DELETE"
        ("/layouts/" ++ encodeURIComponent "Customers" ++ "/records/" ++ "7")
        none "TOK"]⟩ rfl rfl rfl

theorem string_append_cancel_left (a b c : String) (h : a ++ b = a ++ c) : b = c := by
  apply String.ext
  have hd := congrArg String.data h
  rw [String.data_append, String.data_append] at hd
  exact List.append_cancel_left hd

theorem findRecordsCacheKey_eq_iff (cfg : TSConfig) (layout : String) (q₁ q₂ : JVal) :
    findRecordsCacheKey cfg layout q₁ = findRecordsCacheKey cfg layout q₂ ↔
      jsonStringify q₁ = jsonStringify q₂ := by
  constructor
  · intro h
    unfold findRecordsCacheKey at h
    exact string_append_cancel_left _ _ _ h
  · intro h
    unfold findRecordsCacheKey
    rw [h]

theorem tsFindRecords_no_sharing (cfg : TSConfig) (layout : String) (q₁ q₂ : JVal)
    (be : TSBackend) (s : TSState) (hne : jsonStringify q₁ ≠ jsonStringify q₂) :
    assocLookup (findRecordsCacheKey cfg layout q₂)
        ((tsFindRecords cfg layout q₁ be s).2).cache =
      assocLookup (findRecordsCacheKey cfg layout q₂) s.cache := by
  have hkne : findRecordsCacheKey cfg layout q₁ ≠ findRecordsCacheKey cfg layout q₂ := by
    intro hk
    exact hne ((findRecordsCacheKey_eq_iff cfg layout q₁ q₂).mp hk)
  unfold tsFindRecords
  dsimp only
  cases hc : assocLookup (findRecordsCacheKey cfg layout q₁) s.cache with
  | some cached => rfl
  | none =>
    dsimp only
    cases hr : tsRequest cfg "POST" ("/layouts/" ++ encodeURIComponent layout ++ "/_find")
        (some q₁) be s.core with
    | mk r c₁ =>
      cases r with
      | error e => rfl
      | ok result =>
        dsimp only
        exact assocLookup_set_ne _ _ _ _ hkne

/-- C6 (amended): the `findRecords` Result Cache key is the deterministic
string `find_<database>_<layout>_<JSON.stringify(query)>`, where the
serialization keeps object keys in their given order (it is **not**
order-normalized); for a fixed target and layout, two keys coincide exactly
when the two queries' serializations coincide, so two `findRecords` calls
whose queries serialize differently never share a cached result — but
semantically identical queries that differ only in key order serialize
differently and therefore use different keys. -/
theorem findRecordsCacheKey_discrimination :
    (∀ (cfg : TSConfig) (layout : String) (q₁ q₂ : JVal),
       findRecordsCacheKey cfg layout q₁ = findRecordsCacheKey cfg layout q₂ ↔
         jsonStringify q₁ = jsonStringify q₂)
    ∧ (∀ (cfg : TSConfig) (layout : String) (q₁ q₂ : JVal) (be : TSBackend) (s : TSState),
       jsonStringify q₁ ≠ jsonStringify q₂ →
       assocLookup (findRecordsCacheKey cfg layout q₂)
           ((tsFindRecords cfg layout q₁ be s).2).cache =
         assocLookup (findRecordsCacheKey cfg layout q₂) s.cache) :=
  ⟨findRecordsCacheKey_eq_iff, tsFindRecords_no_sharing⟩

/-- The TypeScript client configuration for the `Sales` database. -/
def cfgTS : TSConfig :=
  { server := "fm.example.com", database := "Sales", username := "alice",
    password := "pw", protocol := "https", apiVersion := "v1" }

/-- A TypeScript-client backend on which every call succeeds. -/
def beTS : TSBackend :=
  { authResult := fun _ => .ok "TOK",
    dataResult := fun _ => .ok [("response", .obj [])],
    now := fun _ => 0 }

/-- A freshly constructed client. -/
def tsInit : TSState :=
  { core := { sessionCache := [], sessionInfo := none, authLog := [], dataLog := [] },
    cache := [] }

/-- C6 counterexample: two semantically identical queries — the same fields,
listed in a different order (a permutation) — produce **different** cache
keys, so the serialization is not stable under key reordering and such
queries do not collide in the Result Cache. -/
theorem findRecordsCacheKey_not_order_stable :
    List.Perm [("name", JVal.str "Smith"), ("city", JVal.str "Bern")]
      [("city", JVal.str "Bern"), ("name", JVal.str "Smith")] ∧
    findRecordsCacheKey cfgTS "Customers"
        (.obj [("name", .str "Smith"), ("city", .str "Bern")]) ≠
      findRecordsCacheKey cfgTS "Customers"
        (.obj [("city", .str "Bern"), ("name", .str "Smith")]) := by
  constructor
  · exact List.Perm.swap _ _ _
  · decide

/-- Witness for `findRecordsCacheKey_discrimination`: after a find for one
query, the cache entry under the other query's key is untouched (both are
absent on a fresh client). -/
theorem findRecordsCacheKey_discrimination_witness :
    assocLookup (findRecordsCacheKey cfgTS "Customers" (.obj [("b", .num 2)]))
        ((tsFindRecords cfgTS "Customers" (.obj [("a", .num 1)]) beTS tsInit).2).cache =
      assocLookup (findRecordsCacheKey cfgTS "Customers" (.obj [("b", .num 2)])) tsInit.cache :=
  findRecordsCacheKey_discrimination.2 cfgTS "Customers" (.obj [("a", .num 1)])
    (.obj [("b", .num 2)]) beTS tsInit (by decide)
